import Mathlib

/-!
Verification of the ros2_control controller manager scheduler and the
hardware interface handle layer, shallowly embedded from the C++ sources:

* src/hardware_interface/include/hardware_interface/handle.hpp
* src/hardware_interface/include/hardware_interface/loaned_state_interface.hpp
* src/controller_manager/src/controller_manager.cpp

C++ `double` values are modelled as exact rationals, machine times as
integer nanosecond counts, fallible operations as `Except`, and the
outcome of each non-blocking lock attempt as an explicit boolean input.
-/

namespace Ros2Control

/-- Primary lifecycle states (lifecycle_msgs ids) as compared by the
controller manager helpers `is_controller_unconfigured` /
`is_controller_inactive` / `is_controller_active`
(controller_manager.cpp lines 65-93). -/
inductive LifecycleState
  | unconfigured
  | inactive
  | active
  | finalized
  deriving DecidableEq

/-- controller_interface::return_type. -/
inductive ReturnType
  | ok
  | error
  deriving DecidableEq

/-- Faults thrown by the handle accessors: THROW_ON_NULLPTR on a null
`value_ptr_`, and the runtime_error raised on a variant type mismatch
(handle.hpp lines 230, 239-242, 249-255, 301, 306-312). -/
inductive CppFault
  | nullptrAccess
  | typeMismatch
  deriving DecidableEq

/-- Handle data type enumeration. Modelled from the spec: the enum is
declared in hardware_interface/hardware_info.hpp, which is not among the
sources; the spec fixes `data_type ∈ {double, bool}` (spec §3,
Interface Handle), matching the two cases handled by handle.hpp. -/
inductive HandleDataType
  | double
  | bool
  deriving DecidableEq

/-- HANDLE_DATATYPE = std::variant<std::monostate, double, bool>
(handle.hpp line 63). The C++ `value_ptr_` backward-compatibility
pointer is non-null exactly when the variant holds the double
alternative (constructor, handle.hpp lines 88-109), so it needs no
separate field here. -/
inductive HandleValue
  | monostate
  | d (x : Rat)
  | b (x : Bool)
  deriving DecidableEq

/-- hardware_interface::Handle (handle.hpp lines 66-365), restricted to
the fields the accessors read. -/
structure Handle where
  prefixName : String
  interfaceName : String
  dataType : HandleDataType
  value : HandleValue
  deriving DecidableEq

/-- Handle::get_optional<double> (handle.hpp lines 199-257, T = double).
`lockOwned` is the outcome of the non-blocking shared-lock attempt: on
failure the method returns nullopt before touching the value. For a
double-typed handle it dereferences `value_ptr_` (null unless the
variant holds a double); a bool-typed handle is cast to double with a
one-shot warning; any other variant state cannot be cast. -/
def Handle.getOptionalDouble (h : Handle) (lockOwned : Bool) :
    Except CppFault (Option Rat) :=
  if !lockOwned then .ok none
  else
    match h.dataType with
    | .double =>
      match h.value with
      | .d x => .ok (some x)
      | _ => .error .nullptrAccess
    | .bool =>
      match h.value with
      | .b v => .ok (some (if v then 1 else 0))
      | _ => .error .typeMismatch

/-- Handle::get_optional<bool> (handle.hpp lines 199-257, T = bool,
the generic `std::get<T>(value_)` branch): lock failure returns nullopt,
a variant not holding bool raises the type-mismatch runtime_error. -/
def Handle.getOptionalBool (h : Handle) (lockOwned : Bool) :
    Except CppFault (Option Bool) :=
  if !lockOwned then .ok none
  else
    match h.value with
    | .b v => .ok (some v)
    | _ => .error .typeMismatch

/-- Handle::set_value<double> (handle.hpp lines 270-317, T = double).
`lockOwned` is the outcome of the non-blocking exclusive-lock attempt:
failure returns false with the value untouched. Otherwise
THROW_ON_NULLPTR(value_ptr_) fires unless the variant holds a double,
and on success `*value_ptr_ = value` replaces the stored double. -/
def Handle.setValueDouble (h : Handle) (lockOwned : Bool) (v : Rat) :
    Except CppFault (Bool × Handle) :=
  if !lockOwned then .ok (false, h)
  else
    match h.value with
    | .d _ => .ok (true, { h with value := .d v })
    | _ => .error .nullptrAccess

/-- Handle::set_value<bool> (handle.hpp lines 270-317, T = bool): lock
failure returns false; otherwise `std::holds_alternative<bool>` is
enforced (runtime_error on mismatch) and the variant is assigned. -/
def Handle.setValueBool (h : Handle) (lockOwned : Bool) (v : Bool) :
    Except CppFault (Bool × Handle) :=
  if !lockOwned then .ok (false, h)
  else
    match h.value with
    | .b _ => .ok (true, { h with value := .b v })
    | _ => .error .typeMismatch

/-- Access statistics of a LoanedStateInterface
(loaned_state_interface.hpp lines 152-158). -/
structure HandleRTStatistics where
  totalCounter : Nat
  failedCounter : Nat
  timeoutCounter : Nat
  deriving DecidableEq

/-- One iteration step of LoanedStateInterface::get_optional's do-while
retry loop (loaned_state_interface.hpp lines 114-133). `attempts i` is
the outcome of the i-th underlying `state_interface_.get_optional()`
call (none models a failed lock attempt). `remaining` counts how many
further iterations the guard `nr_tries < max_tries` still allows, i.e.
`max_tries - 1 - nr_tries`; the body always runs at least once because
the C++ loop is do-while. Each attempt bumps the total counter, a
failure bumps the failed counter, and exhausting all tries bumps the
timeout counter exactly once. -/
def lsiGetOptionalGo (attempts : Nat → Option Rat) :
    Nat → Nat → HandleRTStatistics → Option Rat × HandleRTStatistics
  | remaining, nrTries, stats =>
    let stats1 := { stats with totalCounter := stats.totalCounter + 1 }
    match attempts nrTries with
    | some v => (some v, stats1)
    | none =>
      let stats2 := { stats1 with failedCounter := stats1.failedCounter + 1 }
      match remaining with
      | 0 => (none, { stats2 with timeoutCounter := stats2.timeoutCounter + 1 })
      | r + 1 => lsiGetOptionalGo attempts r (nrTries + 1) stats2

/-- LoanedStateInterface::get_optional(max_tries)
(loaned_state_interface.hpp lines 114-133): retry the underlying handle
read up to max_tries times (default 10), returning the first value read
successfully; record statistics. -/
def lsiGetOptional (attempts : Nat → Option Rat) (maxTries : Nat)
    (stats : HandleRTStatistics) : Option Rat × HandleRTStatistics :=
  lsiGetOptionalGo attempts (maxTries - 1) 0 stats

/-- controller_interface::interface_configuration_type (ALL /
INDIVIDUAL / NONE), from
controller_interface/controller_interface_base.hpp. -/
inductive InterfaceConfigType
  | all
  | individual
  | nothing
  deriving DecidableEq

/-- controller_interface::InterfaceConfiguration: a configuration type
together with the explicit names used in the INDIVIDUAL case. -/
structure InterfaceConfiguration where
  cfgType : InterfaceConfigType
  names : List String
  deriving DecidableEq

/-- The slice of controller_manager::ControllerSpec (plus the wrapped
controller's state observable through ControllerInterfaceBase) that the
scheduler reads and writes. Times are integer nanosecond counts
(rclcpp::Time(0,0) is 0). `updateOutcome` is the environment's oracle
for what `trigger_update` reports if it is invoked this cycle: the
`trigger_result.result`, with an exception escaping `update` mapped to
ERROR by the catch blocks (controller_manager.cpp lines 2839-2869).
`claimedInterfaces` combines `info.claimed_interfaces` with the resource
manager's claim tracking for the loans the controller holds (the
resource manager itself is an external collaborator, spec §2 item 3). -/
structure ControllerSpec where
  name : String
  lifecycle : LifecycleState
  isChainable : Bool
  isAsync : Bool
  updateRate : Nat
  cmdItfCfg : InterfaceConfiguration
  stateItfCfg : InterfaceConfiguration
  fallbackControllers : List String
  claimedInterfaces : List String
  lastUpdateCycleTime : Int
  updateOutcome : ReturnType
  deriving DecidableEq

/-- is_controller_active (controller_manager.cpp lines 84-93). -/
def is_controller_active (c : ControllerSpec) : Bool :=
  c.lifecycle = .active

/-- is_controller_inactive (controller_manager.cpp lines 72-82). -/
def is_controller_inactive (c : ControllerSpec) : Bool :=
  c.lifecycle = .inactive

/-- is_controller_unconfigured (controller_manager.cpp lines 65-70). -/
def is_controller_unconfigured (c : ControllerSpec) : Bool :=
  c.lifecycle = .unconfigured

/-- find_if over the roster with controller_name_compare
(controller_manager.cpp lines 95-98). -/
def findController (controllers : List ControllerSpec) (name : String) :
    Option ControllerSpec :=
  controllers.find? (fun c => c.name = name)

/-- The claimed-interface refresh evaluate_switch_result performs on
each roster entry (controller_manager.cpp lines 243-262): an active
controller's claimed list is reset from its command interface
configuration (ALL resolves against the available command interfaces),
an inactive one's is cleared. -/
def refreshClaimedInterfaces (availableCmd : List String)
    (c : ControllerSpec) : ControllerSpec :=
  if is_controller_active c then
    match c.cmdItfCfg.cfgType with
    | .all => { c with claimedInterfaces := availableCmd }
    | .individual => { c with claimedInterfaces := c.cmdItfCfg.names }
    | .nothing => c
  else { c with claimedInterfaces := [] }

/-- The per-controller activation check of evaluate_switch_result
(controller_manager.cpp lines 263-273): a controller named in the
activate list that is not active makes the switch result ERROR. -/
def activateCheckFailed (activateList : List String)
    (c : ControllerSpec) : Bool :=
  activateList.contains c.name && !(is_controller_active c)

/-- The per-controller deactivation check of evaluate_switch_result
(controller_manager.cpp lines 274-289): a controller named in the
deactivate list and NOT also in the activate list (the code comment
excludes chained controllers that are deactivated and reactivated) that
is still active makes the switch result ERROR. -/
def deactivateCheckFailed (activateList deactivateList : List String)
    (c : ControllerSpec) : Bool :=
  deactivateList.contains c.name && !(activateList.contains c.name) &&
    is_controller_active c

/-- evaluate_switch_result (controller_manager.cpp lines 233-339),
without the log/message formatting: refresh every entry's claimed
interfaces, then return ERROR when any activate- or deactivate-check
fails, OK otherwise, together with the updated roster copy. -/
def evaluate_switch_result (availableCmd : List String)
    (activateList deactivateList : List String)
    (controllersSpec : List ControllerSpec) :
    ReturnType × List ControllerSpec :=
  let updated := controllersSpec.map (refreshClaimedInterfaces availableCmd)
  if updated.any (fun c =>
      activateCheckFailed activateList c ||
      deactivateCheckFailed activateList deactivateList c)
  then (.error, updated)
  else (.ok, updated)

/-- The activated controller of the C1 witness scenario. -/
def c1up : ControllerSpec :=
  { name := ("up"), lifecycle := .active, isChainable := false,
    isAsync := false, updateRate := 100,
    cmdItfCfg := ⟨.individual, []⟩, stateItfCfg := ⟨.nothing, []⟩,
    fallbackControllers := [], claimedInterfaces := [],
    lastUpdateCycleTime := 0, updateOutcome := .ok }

/-- The deactivated controller of the C1 witness scenario. -/
def c1down : ControllerSpec :=
  { name := ("down"), lifecycle := .inactive, isChainable := false,
    isAsync := false, updateRate := 100,
    cmdItfCfg := ⟨.individual, []⟩, stateItfCfg := ⟨.nothing, []⟩,
    fallbackControllers := [], claimedInterfaces := [],
    lastUpdateCycleTime := 0, updateOutcome := .ok }

/-- Switch strictness after switch_controller_cb's normalisation
(controller_manager.cpp lines 1368-1402): 0 picks the configured
default and AUTO / FORCE_AUTO map to BEST_EFFORT, so only STRICT and
BEST_EFFORT reach the validation phase. -/
inductive Strictness
  | strict
  | bestEffort
  deriving DecidableEq

/-- The controller manager's switch-request state: the roster plus the
internal request lists written by switch_controller_cb and consumed by
manage_switch, and the per-controller-name flags of the resource
manager's exported state/reference interface availability that
clear_requests touches. -/
structure SwitchState where
  controllers : List ControllerSpec
  activateRequest : List String
  deactivateRequest : List String
  toChainedModeRequest : List String
  fromChainedModeRequest : List String
  activateCmdItfRequest : List String
  deactivateCmdItfRequest : List String
  doSwitch : Bool
  exportedStateAvailableFor : List String
  referenceAvailableFor : List String
  deriving DecidableEq

/-- ControllerManager::clear_requests (controller_manager.cpp lines
1298-1314): drop the do_switch flag, clear every request list, and make
the exported state/reference interfaces of each controller in the
to-chained-mode request unavailable again. -/
def clear_requests (s : SwitchState) : SwitchState :=
  { s with
    doSwitch := false
    deactivateRequest := []
    activateRequest := []
    exportedStateAvailableFor := s.exportedStateAvailableFor.filter
      (fun n => !s.toChainedModeRequest.contains n)
    referenceAvailableFor := s.referenceAvailableFor.filter
      (fun n => !s.toChainedModeRequest.contains n)
    toChainedModeRequest := []
    fromChainedModeRequest := []
    activateCmdItfRequest := []
    deactivateCmdItfRequest := [] }

/-- The timeout installed in switch_params_ before the condition
variable wait (controller_manager.cpp lines 1845-1853): a zero request
timeout selects the default of 1 second (10^9 ns), any other value is
used as given. -/
def switchTimeoutNs (timeoutNs : Int) : Int :=
  if timeoutNs = 0 then 1000000000 else timeoutNs

/-- The commit-and-wait tail of switch_controller_cb
(controller_manager.cpp lines 1854-1887). `rtAck` abstracts whether the
realtime loop cleared do_switch within the timeout of the condition
variable wait; `rtControllers` is the roster as the realtime loop left
it (manage_switch may have applied none, some, or all transitions by
then). On timeout the requests are cleared and ERROR returned with the
realtime roster untouched; on acknowledgement the roster copy is
re-evaluated with evaluate_switch_result and the requests are cleared. -/
def awaitSwitchCompletion (availableCmd : List String) (rtAck : Bool)
    (rtControllers : List ControllerSpec) (s : SwitchState) :
    ReturnType × SwitchState :=
  let s1 := { s with doSwitch := true }
  if !rtAck then
    (.error, clear_requests { s1 with controllers := rtControllers })
  else
    let (result, evaluated) := evaluate_switch_result availableCmd
      s1.activateRequest s1.deactivateRequest rtControllers
    (result, clear_requests { s1 with controllers := evaluated })

/-- Whether a requested controller name resolves against the roster. -/
def present (roster : List ControllerSpec) (name : String) : Bool :=
  (findController roster name).isSome

/-- The `list_controllers` lambda of switch_controller_cb
(controller_manager.cpp lines 1423-1473): walk the requested names,
appending each resolvable one to the request list. A missing name under
STRICT aborts immediately with ERROR; under BEST_EFFORT it sets the
running result to ERROR only while the request list is still empty
("if there are more controllers that are in the list, this is not a
critical error") and continues, so the running result is overwritten by
every later iteration. -/
def list_controllers_go (roster : List ControllerSpec)
    (strictness : Strictness) :
    List String → List String → ReturnType → ReturnType × List String
  | [], requestList, result => (result, requestList)
  | name :: rest, requestList, _ =>
    match findController roster name with
    | none =>
      let missResult : ReturnType :=
        if requestList.isEmpty then .error else .ok
      if strictness = .strict then (.error, requestList)
      else list_controllers_go roster strictness rest requestList missResult
    | some _ =>
      list_controllers_go roster strictness rest (requestList ++ [name]) .ok

/-- The two resolution calls of switch_controller_cb
(controller_manager.cpp lines 1475-1490): resolve the deactivate names,
then the activate names; a failing pass clears the request lists built
so far and returns its error. -/
def resolveSwitchRequests (roster : List ControllerSpec)
    (strictness : Strictness) (deactivateNames activateNames : List String) :
    ReturnType × List String × List String :=
  let dres := list_controllers_go roster strictness deactivateNames [] .ok
  if dres.1 ≠ .ok then (dres.1, [], [])
  else
    let ares := list_controllers_go roster strictness activateNames [] .ok
    if ares.1 ≠ .ok then (ares.1, [], [])
    else (.ok, dres.2, ares.2)

/-- The external inputs of a load_controller call: the plugin loaders'
available classes, the values of the per-controller parameters read
while building the ControllerSpec (controller_manager.cpp lines
853-909), and whether the controller's init callback (user code) would
succeed inside add_controller_impl. -/
structure LoadEnv where
  availableClasses : List String
  fallbackControllersParam : List String
  nodeOptionsArgsParam : List String
  initSucceeds : Bool
  deriving DecidableEq

/-- ControllerManager::add_controller_impl (controller_manager.cpp
lines 1889-1965) at roster level: loading a duplicate name or a
controller whose init errors/throws clears the working copy and returns
null (the published roster is unchanged); otherwise the controller is
appended and the lists swap. The returned option is the shared pointer
result (some name standing for the non-null controller). -/
def add_controller_impl (env : LoadEnv) (roster : List ControllerSpec)
    (c : ControllerSpec) : Option String × List ControllerSpec :=
  if (findController roster c.name).isSome then (none, roster)
  else if !env.initSucceeds then (none, roster)
  else (some c.name, roster ++ [c])

/-- ControllerManager::load_controller(name, type)
(controller_manager.cpp lines 785-912): fail when no loader offers the
type; build the ControllerSpec; read the fallback_controllers
parameter, rejecting a controller that lists itself as its own fallback
(lines 885-895) before add_controller_impl is ever reached; then hand
over to add_controller_impl. Plugin instantiation and the
params_file/node_options_args handling do not affect the roster. -/
def load_controller (env : LoadEnv) (roster : List ControllerSpec)
    (controllerName controllerType : String) :
    Option String × List ControllerSpec :=
  if !env.availableClasses.contains controllerType then (none, roster)
  else
    let base : ControllerSpec :=
      { name := controllerName, lifecycle := .unconfigured,
        isChainable := false, isAsync := false, updateRate := 0,
        cmdItfCfg := ⟨.nothing, []⟩, stateItfCfg := ⟨.nothing, []⟩,
        fallbackControllers := [], claimedInterfaces := [],
        lastUpdateCycleTime := 0, updateOutcome := .ok }
    if !env.fallbackControllersParam.isEmpty &&
        env.fallbackControllersParam.contains controllerName
    then (none, roster)
    else
      add_controller_impl env roster
        { base with fallbackControllers := env.fallbackControllersParam }

/-- Lookup in the controller manager's chained-interface caches
(unordered_map<string, vector<string>>; a missing key reads as the
empty vector). -/
def cacheLookup (cache : List (String × List String)) (name : String) :
    List String :=
  match cache.find? (fun p => p.1 = name) with
  | some p => p.2
  | none => []

/-- ControllerManager::check_preceding_controllers_for_deactivate
(controller_manager.cpp lines 3340-3410): a non-chainable controller
passes; otherwise its preceding controllers are read from the chained
state- and reference-interface caches, and deactivation errors if any
preceding controller found in the roster is either inactive but listed
in the activate request, or active but not listed in the deactivate
request. -/
def check_preceding_controllers_for_deactivate
    (controllers : List ControllerSpec)
    (stateItfCache refItfCache : List (String × List String))
    (activateRequest deactivateRequest : List String)
    (c : ControllerSpec) : ReturnType :=
  if !c.isChainable then .ok
  else
    let precedingList :=
      cacheLookup stateItfCache c.name ++ cacheLookup refItfCache c.name
    if precedingList.any (fun p =>
        match findController controllers p with
        | some pc =>
          (is_controller_inactive pc && activateRequest.contains p) ||
          (is_controller_active pc && !(deactivateRequest.contains p))
        | none => false)
    then .error
    else .ok

/-- The deactivation-validation loop of switch_controller_cb
(controller_manager.cpp lines 1587-1633): walk the deactivate request;
a controller that is not active, or whose preceding-controller check
fails, cannot be deactivated — under STRICT the whole switch aborts
(the caller then runs clear_requests), under BEST_EFFORT the entry is
erased and the walk continues. `kept` is the already-validated prefix
of the request list; the preceding-controller check always sees the
current full list `kept ++ name :: rest`. -/
def deactivateValidationGo (controllers : List ControllerSpec)
    (stateItfCache refItfCache : List (String × List String))
    (strictness : Strictness) (activateRequest : List String) :
    List String → List String → ReturnType × List String
  | kept, [] => (.ok, kept)
  | kept, name :: rest =>
    let status :=
      match findController controllers name with
      | some c =>
        if !is_controller_active c then ReturnType.error
        else check_preceding_controllers_for_deactivate controllers
          stateItfCache refItfCache activateRequest (kept ++ name :: rest) c
      | none => ReturnType.ok
    if status = .ok then
      deactivateValidationGo controllers stateItfCache refItfCache
        strictness activateRequest (kept ++ [name]) rest
    else
      match strictness with
      | .strict => (.error, [])
      | .bestEffort =>
        deactivateValidationGo controllers stateItfCache refItfCache
          strictness activateRequest kept rest

/-- The deactivation-validation phase over the switch state: on a
STRICT failure the requests are cleared and ERROR returned
(controller_manager.cpp lines 1625-1631); otherwise the surviving
deactivate request replaces the original. Controller lifecycles are
never touched here — this all happens before the realtime commit. -/
def deactivateValidationPhase (s : SwitchState)
    (stateItfCache refItfCache : List (String × List String))
    (strictness : Strictness) : ReturnType × SwitchState :=
  let r := deactivateValidationGo s.controllers stateItfCache refItfCache
    strictness s.activateRequest [] s.deactivateRequest
  if r.1 = .error then (.error, clear_requests s)
  else (.ok, { s with deactivateRequest := r.2 })

/-- The per-cycle inputs of ControllerManager::update (controller_manager.cpp
lines 2749-2945): the manager rate, the clock state (`get_clock()->started()`
and `get_trigger_clock()->now()` in ns), the `time` argument (ns;
rclcpp::Time(0,0) is 0), the pending-switch view (switch_params_.do_switch
and deactivate_request_) used by the async skip, and the resource manager's
available command interfaces used to resolve ALL configurations. -/
structure UpdateCycleContext where
  managerRate : Nat
  clockStarted : Bool
  timeArg : Int
  nowClock : Int
  doSwitch : Bool
  deactivateRequest : List String
  availableCmd : List String
  deriving DecidableEq

/-- The async-deactivation skip (controller_manager.cpp lines 2785-2795):
an active async controller that a pending switch is about to deactivate
is not updated this cycle. -/
def skipAsyncDeactivating (ctx : UpdateCycleContext)
    (c : ControllerSpec) : Bool :=
  ctx.doSwitch && c.isAsync && ctx.deactivateRequest.contains c.name

/-- run_controller_at_cm_rate (controller_manager.cpp line 2797). -/
def runControllerAtCmRate (ctx : UpdateCycleContext)
    (c : ControllerSpec) : Bool :=
  decide (c.updateRate ≥ ctx.managerRate)

/-- current_time (controller_manager.cpp line 2803): the trigger clock
when started, else the `time` argument. -/
def currentTime (ctx : UpdateCycleContext) : Int :=
  if ctx.clockStarted then ctx.nowClock else ctx.timeArg

/-- first_update_cycle (controller_manager.cpp lines 2802-2814):
last_update_cycle_time is zero right after activation. -/
def firstUpdateCycle (c : ControllerSpec) : Bool :=
  decide (c.lastUpdateCycleTime = 0)

/-- The reference time used for controller_actual_period: on the first
cycle after activation the code first sets last_update_cycle_time to
current_time (controller_manager.cpp line 2810). -/
def lastTimeRef (ctx : UpdateCycleContext) (c : ControllerSpec) : Int :=
  if firstUpdateCycle c then currentTime ctx else c.lastUpdateCycleTime

/-- controller_actual_period in ns (controller_manager.cpp lines
2815-2816). -/
def controllerActualPeriod (ctx : UpdateCycleContext)
    (c : ControllerSpec) : Int :=
  currentTime ctx - lastTimeRef ctx c

/-- The 0.99 rate gate (controller_manager.cpp lines 2818-2827):
`controller_actual_period.seconds() * controller_update_rate >= 0.99`
written exactly over integer nanoseconds —
(Δns / 10^9) * rate ≥ 99/100  ⟺  Δns * rate * 100 ≥ 99 * 10^9. -/
def rateGate (ctx : UpdateCycleContext) (c : ControllerSpec) : Bool :=
  decide (controllerActualPeriod ctx c * (c.updateRate : Int) * 100 ≥
    99 * 1000000000)

/-- controller_go (controller_manager.cpp lines 2824-2827): run when the
controller runs at (or above) the manager rate, OR the `time` argument
is the zero time, OR the jitter-absorbing 0.99 gate passes, OR it is
the first cycle after activation. -/
def controllerGo (ctx : UpdateCycleContext) (c : ControllerSpec) : Bool :=
  runControllerAtCmRate ctx c || decide (ctx.timeArg = 0) ||
    rateGate ctx c || firstUpdateCycle c

/-- Whether the per-controller loop of update invokes trigger_update on
this controller this cycle (controller_manager.cpp lines 2779-2878):
it must be active, not skipped as an async controller pending
deactivation, and controller_go must hold. -/
def controllerTriggered (ctx : UpdateCycleContext)
    (c : ControllerSpec) : Bool :=
  is_controller_active c && !(skipAsyncDeactivating ctx c) &&
    controllerGo ctx c

/-- The per-controller state change of the update loop: the only field
the loop writes is last_update_cycle_time, set to current_time on the
first cycle after activation (line 2810) and again after a triggered
update (line 2871); since first_update_cycle implies controller_go,
this happens exactly for triggered controllers. -/
def controllerStepTime (ctx : UpdateCycleContext)
    (c : ControllerSpec) : ControllerSpec :=
  if controllerTriggered ctx c then
    { c with lastUpdateCycleTime := currentTime ctx }
  else c

/-- rt_buffer_.deactivate_controllers_list after the update loop
(controller_manager.cpp lines 2873-2877): the names, in roster order,
of the triggered controllers whose trigger result was not OK (an update
exception was already converted to ERROR by the catch blocks). -/
def updateLoopErrors (ctx : UpdateCycleContext)
    (controllers : List ControllerSpec) : List String :=
  (controllers.filter (fun c =>
    controllerTriggered ctx c &&
      !(decide (c.updateOutcome = ReturnType.ok)))).map (fun c => c.name)

/-- ros2_control::add_item. Modelled from the spec usage: the utility
header is not among the sources; the call sites append the item only
when it is not in the list yet (comment at controller_manager.cpp lines
201-207). -/
def add_item (l : List String) (x : String) : List String :=
  if l.contains x then l else l ++ [x]

/-- The inner roster scan of
get_active_controllers_using_command_interfaces_of_controller
(controller_manager.cpp lines 196-209): an active controller whose
command interface configuration names the interface is added once. -/
def usersScanStep (cmdItf : String) (acc2 : List String)
    (c : ControllerSpec) : List String :=
  if is_controller_active c && c.cmdItfCfg.names.contains cmdItf
  then add_item acc2 c.name else acc2

/-- get_active_controllers_using_command_interfaces_of_controller
(controller_manager.cpp lines 179-211): for each command interface of
the named controller, add (deduplicated) every active controller whose
command interface configuration names that interface. -/
def get_active_controllers_using_command_interfaces_of_controller
    (controllerName : String) (controllers : List ControllerSpec)
    (acc : List String) : List String :=
  match findController controllers controllerName with
  | none => acc
  | some target =>
    target.cmdItfCfg.names.foldl (fun acc1 cmdItf =>
      controllers.foldl (usersScanStep cmdItf) acc1) acc

/-- One fallback entry of the collection pass (controller_manager.cpp
lines 2893-2899): push the fallback name and record the active
controllers using its command interfaces. -/
def fallbackPushStep (controllers : List ControllerSpec)
    (acc2 : List String × List String) (fb : String) :
    List String × List String :=
  (acc2.1 ++ [fb],
   get_active_controllers_using_command_interfaces_of_controller
     fb controllers acc2.2)

/-- One failed controller of the collection pass (controller_manager.cpp
lines 2886-2901): a failed name not found in the roster contributes
nothing, otherwise each of its fallback controllers is pushed. -/
def collectFallbacksStep (controllers : List ControllerSpec)
    (acc : List String × List String) (failed : String) :
    List String × List String :=
  match findController controllers failed with
  | none => acc
  | some fc => fc.fallbackControllers.foldl (fallbackPushStep controllers) acc

/-- The fallback collection pass of update (controller_manager.cpp
lines 2883-2901) over the whole deactivate-on-error list, starting from
the cleared rt_buffer_ lists. -/
def collectFallbacks (controllers : List ControllerSpec)
    (errs : List String) : List String × List String :=
  errs.foldl (collectFallbacksStep controllers) ([], [])

/-- The per-entry effect of ControllerManager::deactivate_controllers:
a listed, currently active controller becomes INACTIVE and releases its
interfaces; any other entry is untouched. -/
def deactivateElem (names : List String) (c : ControllerSpec) :
    ControllerSpec :=
  if names.contains c.name && is_controller_active c
  then { c with lifecycle := .inactive, claimedInterfaces := [] }
  else c

/-- ControllerManager::deactivate_controllers (controller_manager.cpp
lines 1967-2023) under the model that the (external) lifecycle node
deactivate callback succeeds. The C++ iterates the name list and edits
the found roster entry in place; with unique controller names that is
the same as this per-entry map. -/
def deactivate_controllers (controllers : List ControllerSpec)
    (names : List String) : List ControllerSpec :=
  controllers.map (deactivateElem names)

/-- extract_command_interfaces_for_controller (controller_manager.cpp
lines 213-231): resolve a command interface configuration — ALL is the
resource manager's available command interfaces, INDIVIDUAL the listed
names, NONE nothing. -/
def extract_command_interface_names (availableCmd : List String)
    (cfg : InterfaceConfiguration) : List String :=
  match cfg.cfgType with
  | .all => availableCmd
  | .individual => cfg.names
  | .nothing => []

/-- resource_manager->command_interface_is_claimed, expressed over the
loans tracked in the roster: an interface is claimed when some
controller currently holds it. -/
def command_interface_is_claimed (controllers : List ControllerSpec)
    (itf : String) : Bool :=
  controllers.any (fun c => c.claimedInterfaces.contains itf)

/-- The last_update_cycle_time reset that activation performs on the
named entry (controller_manager.cpp lines 2089-2091). -/
def resetTimeElem (name : String) (x : ControllerSpec) : ControllerSpec :=
  if x.name = name then { x with lastUpdateCycleTime := 0 } else x

/-- The lifecycle/claim effect of a successful activation on the named
entry (assign_interfaces plus the activate callback reaching ACTIVE,
controller_manager.cpp lines 2108-2196). -/
def activateElem (name : String) (cmdNames : List String)
    (x : ControllerSpec) : ControllerSpec :=
  if x.name = name
  then { x with lifecycle := .active, claimedInterfaces := cmdNames }
  else x

/-- One iteration of ControllerManager::activate_controllers
(controller_manager.cpp lines 2071-2223) under the model that the
(external) lifecycle node activate callback succeeds: reset the
controller's last_update_cycle_time to zero (line 2090, before interface
assignment), resolve its command interfaces, and — unless one of them
is already claimed, which aborts the assignment and skips the
controller — claim them and make the controller ACTIVE. -/
def activate_one (availableCmd : List String)
    (controllers : List ControllerSpec) (name : String) :
    List ControllerSpec :=
  match findController controllers name with
  | none => controllers
  | some c =>
    let reset := controllers.map (resetTimeElem name)
    let cmdNames := extract_command_interface_names availableCmd c.cmdItfCfg
    if cmdNames.any (command_interface_is_claimed reset) then reset
    else reset.map (activateElem name cmdNames)

/-- ControllerManager::activate_controllers over a request list. -/
def activate_controllers (availableCmd : List String)
    (controllers : List ControllerSpec) (names : List String) :
    List ControllerSpec :=
  names.foldl (activate_one availableCmd) controllers

/-- The update-loop and error-handling part of ControllerManager::update
(controller_manager.cpp lines 2749-2933): run the rate-gated update loop,
and if any controller erred, collect fallbacks and the active users of
their command interfaces, extend the deactivation list with those users,
deactivate, then activate the fallbacks — all within this same cycle.
The hardware command-mode change (line 2923) only talks to the resource
manager and the pending-switch handling (manage_switch, line 2939)
concerns a different claim, so they do not appear in the roster fold.
Returns update's return value together with the roster after the cycle. -/
def updateCycle (ctx : UpdateCycleContext)
    (controllers : List ControllerSpec) :
    ReturnType × List ControllerSpec :=
  let cs1 := controllers.map (controllerStepTime ctx)
  let errs := updateLoopErrors ctx controllers
  if errs.isEmpty then (.ok, cs1)
  else
    let fb := collectFallbacks cs1 errs
    let deactList := fb.2.foldl add_item errs
    let cs2 := deactivate_controllers cs1 deactList
    let cs3 := if fb.1.isEmpty then cs2
      else activate_controllers ctx.availableCmd cs2 fb.1
    (.error, cs3)

/-- The rate-gate condition exactly as the claim words it (spec §4.6
step 2): run iff the controller runs at the manager's rate, or it is
the first cycle after activation, or
(now − last_update_cycle_time) · controller_rate ≥ 0.99 with times in
seconds. -/
def specGateOriginal (ctx : UpdateCycleContext) (c : ControllerSpec) : Bool :=
  decide (c.updateRate ≥ ctx.managerRate) || firstUpdateCycle c ||
    decide (((currentTime ctx - c.lastUpdateCycleTime : Int) : Rat)
      / 1000000000 * (c.updateRate : Rat) ≥ 99 / 100)

/-- The amended rate-gate condition: the original three disjuncts plus
the zero-`time`-argument escape that the code also accepts. -/
def specGateAmended (ctx : UpdateCycleContext) (c : ControllerSpec) : Bool :=
  decide (c.updateRate ≥ ctx.managerRate) || decide (ctx.timeArg = 0) ||
    firstUpdateCycle c ||
    decide (((currentTime ctx - c.lastUpdateCycleTime : Int) : Rat)
      / 1000000000 * (c.updateRate : Rat) ≥ 99 / 100)

/-- The combined per-entry effect of a successful activate_one on the
roster: reset the named entry's last update time, then mark it active
with its claimed interfaces. -/
def activateBoth (name : String) (cmds : List String)
    (x : ControllerSpec) : ControllerSpec :=
  activateElem name cmds (resetTimeElem name x)

/-- The roster image of the rate-gated update loop of one cycle. -/
def postLoopControllers (ctx : UpdateCycleContext)
    (cs : List ControllerSpec) : List ControllerSpec :=
  cs.map (controllerStepTime ctx)

/-- The fallback-controllers and interface-users lists the error
handling of one cycle computes. -/
def cycleFallbackLists (ctx : UpdateCycleContext)
    (cs : List ControllerSpec) : List String × List String :=
  collectFallbacks (postLoopControllers ctx cs) (updateLoopErrors ctx cs)

/-- The complete deactivation list of the error handling of one cycle:
the failed controllers plus the active users of interfaces the
fallbacks need (controller_manager.cpp lines 2916-2920). -/
def cycleDeactivateList (ctx : UpdateCycleContext)
    (cs : List ControllerSpec) : List String :=
  (cycleFallbackLists ctx cs).2.foldl add_item (updateLoopErrors ctx cs)

/-- Concrete cycle context for the C2 scenario (spec S4): manager at
100 Hz, trigger clock at t = 1 s, no pending switch. -/
def c2ctx : UpdateCycleContext :=
  { managerRate := 100, clockStarted := true, timeArg := 1000000000,
    nowClock := 1000000000, doSwitch := false, deactivateRequest := [],
    availableCmd := [] }

/-- The failing controller of the C2 scenario: active, running at the
manager rate, with fallback safe; its update reports ERROR this
cycle. -/
def c2risky : ControllerSpec :=
  { name := ("risky"), lifecycle := .active, isChainable := false,
    isAsync := false, updateRate := 100,
    cmdItfCfg := ⟨.individual, [("joint1/cmd")]⟩,
    stateItfCfg := ⟨.nothing, []⟩,
    fallbackControllers := [("safe")],
    claimedInterfaces := [("joint1/cmd")],
    lastUpdateCycleTime := 500000000, updateOutcome := .error }

/-- The fallback controller of the C2 scenario: configured, inactive,
needing the same command interface the failing controller holds. -/
def c2safe : ControllerSpec :=
  { name := ("safe"), lifecycle := .inactive, isChainable := false,
    isAsync := false, updateRate := 100,
    cmdItfCfg := ⟨.individual, [("joint1/cmd")]⟩,
    stateItfCfg := ⟨.nothing, []⟩,
    fallbackControllers := [], claimedInterfaces := [],
    lastUpdateCycleTime := 0, updateOutcome := .ok }

/-- The two-controller roster of the C2 scenario. -/
def c2roster : List ControllerSpec := [c2risky, c2safe]

theorem lsiGetOptionalGo_all_fail (attempts : Nat → Option Rat) :
    ∀ (remaining nrTries : Nat) (stats : HandleRTStatistics),
      (∀ i, i ≤ remaining → attempts (nrTries + i) = none) →
      lsiGetOptionalGo attempts remaining nrTries stats =
        (none,
         { totalCounter := stats.totalCounter + (remaining + 1)
           failedCounter := stats.failedCounter + (remaining + 1)
           timeoutCounter := stats.timeoutCounter + 1 }) := by
  intro remaining
  induction remaining with
  | zero =>
    intro nrTries stats hfail
    have h0 : attempts nrTries = none := by
      have := hfail 0 (Nat.le_refl 0)
      simpa using this
    rw [lsiGetOptionalGo]
    simp [h0]
  | succ r ih =>
    intro nrTries stats hfail
    have h0 : attempts nrTries = none := by
      have := hfail 0 (Nat.zero_le _)
      simpa using this
    have hrec := ih (nrTries + 1)
      { stats with
        totalCounter := stats.totalCounter + 1
        failedCounter := stats.failedCounter + 1 }
      (by
        intro i hi
        have := hfail (i + 1) (by omega)
        simpa [Nat.add_assoc, Nat.add_comm, Nat.add_left_comm] using this)
    rw [lsiGetOptionalGo]
    simp only [h0]
    rw [hrec]
    simp
    all_goals omega

theorem lsiGetOptionalGo_first_success (attempts : Nat → Option Rat)
    (v : Rat) :
    ∀ (k remaining nrTries : Nat) (stats : HandleRTStatistics),
      k ≤ remaining →
      (∀ i, i < k → attempts (nrTries + i) = none) →
      attempts (nrTries + k) = some v →
      lsiGetOptionalGo attempts remaining nrTries stats =
        (some v,
         { totalCounter := stats.totalCounter + (k + 1)
           failedCounter := stats.failedCounter + k
           timeoutCounter := stats.timeoutCounter }) := by
  intro k
  induction k with
  | zero =>
    intro remaining nrTries stats _ _ hsucc
    have h0 : attempts nrTries = some v := by simpa using hsucc
    rw [lsiGetOptionalGo]
    simp [h0]
  | succ k' ih =>
    intro remaining nrTries stats hk hfail hsucc
    obtain ⟨r, rfl⟩ : ∃ r, remaining = r + 1 := ⟨remaining - 1, by omega⟩
    have h0 : attempts nrTries = none := by
      have := hfail 0 (Nat.succ_pos _)
      simpa using this
    have hrec := ih r (nrTries + 1)
      { stats with
        totalCounter := stats.totalCounter + 1
        failedCounter := stats.failedCounter + 1 }
      (by omega)
      (by
        intro i hi
        have := hfail (i + 1) (by omega)
        simpa [Nat.add_assoc, Nat.add_comm, Nat.add_left_comm] using this)
      (by
        have : nrTries + 1 + k' = nrTries + (k' + 1) := by omega
        rw [this]; exact hsucc)
    rw [lsiGetOptionalGo]
    simp only [h0]
    rw [hrec]
    simp
    all_goals omega

/-- C7: for every interface Handle, a get_optional call whose
non-blocking shared-lock attempt fails returns None (for both value
types); a set_value call whose non-blocking exclusive-lock attempt
fails returns false and leaves the stored value unchanged; and when
set_value succeeds with a type matching the handle's declared data type
(double on a double handle, bool on a bool handle), the stored value
becomes the given value and true is returned. -/
theorem claim_C7 :
    ∀ (h : Handle) (p i : String) (v x : Rat) (y bv : Bool),
      Handle.getOptionalDouble h false = Except.ok none ∧
      Handle.getOptionalBool h false = Except.ok none ∧
      Handle.setValueDouble h false v = Except.ok (false, h) ∧
      Handle.setValueBool h false y = Except.ok (false, h) ∧
      Handle.setValueDouble
          (Handle.mk p i HandleDataType.double (HandleValue.d x)) true v
        = Except.ok (true, Handle.mk p i HandleDataType.double (HandleValue.d v)) ∧
      Handle.setValueBool
          (Handle.mk p i HandleDataType.bool (HandleValue.b bv)) true y
        = Except.ok (true, Handle.mk p i HandleDataType.bool (HandleValue.b y)) := by
  intro h p i v x y bv
  refine ⟨?_, ?_, ?_, ?_, ?_, ?_⟩ <;>
    simp [Handle.getOptionalDouble, Handle.getOptionalBool,
      Handle.setValueDouble, Handle.setValueBool]

/-- C8: for every LoanedStateInterface and max_tries ≥ 1, get_optional
attempts the underlying handle read at most max_tries times; if all
attempts fail it returns None, incrementing the timeout counter exactly
once and the failed counter once per failed attempt; and if attempt k
(k < max_tries) is the first to succeed, the value is returned
immediately after k failed and k+1 total attempts, with the timeout
counter untouched. -/
theorem claim_C8 (attempts : Nat → Option Rat) (maxTries : Nat)
    (stats : HandleRTStatistics) (hmt : 1 ≤ maxTries) :
    ((∀ i, i < maxTries → attempts i = none) →
      lsiGetOptional attempts maxTries stats =
        (none,
         { totalCounter := stats.totalCounter + maxTries
           failedCounter := stats.failedCounter + maxTries
           timeoutCounter := stats.timeoutCounter + 1 })) ∧
    (∀ k v, k < maxTries → (∀ i, i < k → attempts i = none) →
      attempts k = some v →
      lsiGetOptional attempts maxTries stats =
        (some v,
         { totalCounter := stats.totalCounter + (k + 1)
           failedCounter := stats.failedCounter + k
           timeoutCounter := stats.timeoutCounter })) ∧
    (lsiGetOptional attempts maxTries stats).2.totalCounter ≤
      stats.totalCounter + maxTries := by
  have hrem : maxTries - 1 + 1 = maxTries := by omega
  refine ⟨?_, ?_, ?_⟩
  · intro hall
    have := lsiGetOptionalGo_all_fail attempts (maxTries - 1) 0 stats
      (by intro j hj; simpa using hall j (by omega))
    rw [lsiGetOptional, this, hrem]
  · intro k v hk hfail hsucc
    exact lsiGetOptionalGo_first_success attempts v k (maxTries - 1) 0 stats
      (by omega) (by intro j hj; simpa using hfail j hj) (by simpa using hsucc)
  · by_cases hex : ∃ k, k < maxTries ∧ (attempts k).isSome
    · obtain ⟨k, hk, hks⟩ := hex
      have hex0 : ∃ n, (attempts n).isSome = true := ⟨k, hks⟩
      set k0 := Nat.find hex0 with hk0
      have hk0le : k0 ≤ k := Nat.find_min' hex0 hks
      obtain ⟨v, hv⟩ := Option.isSome_iff_exists.mp (Nat.find_spec hex0)
      have hfirst := lsiGetOptionalGo_first_success attempts v k0
        (maxTries - 1) 0 stats (by omega)
        (by
          intro j hj
          have := Nat.find_min hex0 (m := j) hj
          simpa [Option.not_isSome_iff_eq_none] using this)
        (by simpa using hv)
      rw [lsiGetOptional, hfirst]
      simp
      omega
    · push_neg at hex
      have := lsiGetOptionalGo_all_fail attempts (maxTries - 1) 0 stats
        (by
          intro j hj
          have hns := hex j (by omega)
          simpa [Option.not_isSome_iff_eq_none] using hns)
      rw [lsiGetOptional, this]
      simp
      omega

/-- Witness for C8: concrete runs with max_tries = 10 — all attempts
failing, and the third attempt succeeding. -/
theorem claim_C8_witness :
    lsiGetOptional (fun _ => none) 10 ⟨0, 0, 0⟩ = (none, ⟨10, 10, 1⟩) ∧
    lsiGetOptional (fun j => if j = 2 then some 5 else none) 10 ⟨0, 0, 0⟩
      = (some 5, ⟨3, 2, 0⟩) := by
  constructor
  · exact (claim_C8 (fun _ => none) 10 ⟨0, 0, 0⟩ (by omega)).1
      (by intro j hj; rfl)
  · exact (claim_C8 (fun j => if j = 2 then some 5 else none) 10
      ⟨0, 0, 0⟩ (by omega)).2.1 2 5 (by omega)
      (by intro j hj; interval_cases j <;> rfl) rfl

/-- C1 counterexample: a successful chain-mode flip plus a finalized
controller. Controller a appears in both the activate and the
deactivate list and ends the switch ACTIVE; controller b appears only
in the deactivate list and is FINALIZED. evaluate_switch_result — whose
result switch_controller_cb returns (controller_manager.cpp lines
1875-1886) — reports OK, yet neither name in the deactivate list is in
state INACTIVE, refuting the claim that OK implies every deactivate-list
controller is INACTIVE. -/
theorem claim_C1_counterexample :
    (evaluate_switch_result []
        [("a")] [("a"), ("b")]
        [{ name := ("a"), lifecycle := .active, isChainable := true,
           isAsync := false, updateRate := 100,
           cmdItfCfg := ⟨.individual, []⟩, stateItfCfg := ⟨.nothing, []⟩,
           fallbackControllers := [], claimedInterfaces := [],
           lastUpdateCycleTime := 0, updateOutcome := .ok },
         { name := ("b"), lifecycle := .finalized, isChainable := false,
           isAsync := false, updateRate := 100,
           cmdItfCfg := ⟨.individual, []⟩, stateItfCfg := ⟨.nothing, []⟩,
           fallbackControllers := [], claimedInterfaces := [],
           lastUpdateCycleTime := 0, updateOutcome := .ok }]).1 = .ok ∧
    ¬ (∀ c ∈ (evaluate_switch_result []
        [("a")] [("a"), ("b")]
        [{ name := ("a"), lifecycle := .active, isChainable := true,
           isAsync := false, updateRate := 100,
           cmdItfCfg := ⟨.individual, []⟩, stateItfCfg := ⟨.nothing, []⟩,
           fallbackControllers := [], claimedInterfaces := [],
           lastUpdateCycleTime := 0, updateOutcome := .ok },
         { name := ("b"), lifecycle := .finalized, isChainable := false,
           isAsync := false, updateRate := 100,
           cmdItfCfg := ⟨.individual, []⟩, stateItfCfg := ⟨.nothing, []⟩,
           fallbackControllers := [], claimedInterfaces := [],
           lastUpdateCycleTime := 0, updateOutcome := .ok }]).2,
        ([("a"), ("b")].contains c.name → c.lifecycle = .inactive)) := by
  constructor
  · decide
  · intro hall
    have := hall
      (refreshClaimedInterfaces []
        { name := ("a"), lifecycle := .active, isChainable := true,
          isAsync := false, updateRate := 100,
          cmdItfCfg := ⟨.individual, []⟩, stateItfCfg := ⟨.nothing, []⟩,
          fallbackControllers := [], claimedInterfaces := [],
          lastUpdateCycleTime := 0, updateOutcome := .ok })
      (by decide) (by decide)
    exact absurd this (by decide)

/-- C1 (amended): when evaluate_switch_result — whose result a
completing switch_controller call returns — reports OK, every roster
controller named in the activate list is ACTIVE, and every roster
controller named in the deactivate list but not also in the activate
list is not ACTIVE. (The original claim fails for a controller listed
in both lists — a chain-mode flip ends ACTIVE — and a deactivate-listed
controller can be in any non-ACTIVE state, e.g. FINALIZED, not
necessarily INACTIVE.) -/
theorem claim_C1 (availableCmd activateList deactivateList : List String)
    (controllersSpec : List ControllerSpec)
    (hok : (evaluate_switch_result availableCmd activateList deactivateList
      controllersSpec).1 = .ok) :
    ∀ c ∈ (evaluate_switch_result availableCmd activateList deactivateList
      controllersSpec).2,
      (activateList.contains c.name → c.lifecycle = .active) ∧
      (deactivateList.contains c.name → ¬ activateList.contains c.name →
        c.lifecycle ≠ .active) := by
  intro c hc
  unfold evaluate_switch_result at hok hc
  by_cases hany : (controllersSpec.map (refreshClaimedInterfaces availableCmd)).any
      (fun c => activateCheckFailed activateList c ||
        deactivateCheckFailed activateList deactivateList c)
  · simp only [hany, if_true] at hok
    exact absurd hok (by decide)
  · simp only [hany, if_false] at hc
    simp only [List.any_eq_true, not_exists, not_and] at hany
    have hcont := hany c (by simpa using hc)
    simp only [Bool.or_eq_true, not_or] at hcont
    constructor
    · intro hmem
      by_contra hne
      apply hcont.1
      unfold activateCheckFailed is_controller_active
      rw [hmem]
      simp [hne]
    · intro hmem hnact heq
      apply hcont.2
      have hnact2 : activateList.contains c.name = false :=
        Bool.eq_false_iff.mpr hnact
      unfold deactivateCheckFailed is_controller_active
      rw [hmem, hnact2]
      simp [heq]

/-- Witness for C1 at a concrete OK switch: one controller activated,
one deactivated. -/
theorem claim_C1_witness :
    (refreshClaimedInterfaces [] c1up).lifecycle = .active ∧
    (refreshClaimedInterfaces [] c1down).lifecycle ≠ .active := by
  have h := claim_C1 [] [("up")] [("down")] [c1up, c1down] (by decide)
  constructor
  · exact (h (refreshClaimedInterfaces [] c1up) (by decide)).1 (by decide)
  · exact (h (refreshClaimedInterfaces [] c1down) (by decide)).2
      (by decide) (by decide)

/-- C9: a switch_controller call with a timeout of exactly zero
duration waits on the realtime loop with the default timeout of
1 second (10^9 ns) — a positive, finite duration — while any nonzero
requested timeout is used as given. -/
theorem claim_C9 :
    switchTimeoutNs 0 = 1000000000 ∧ 0 < switchTimeoutNs 0 ∧
      ∀ t : Int, t ≠ 0 → switchTimeoutNs t = t := by
  refine ⟨by decide, by decide, ?_⟩
  intro t ht
  simp [switchTimeoutNs, ht]

/-- Witness for C9 at zero and at a concrete nonzero timeout
(100 ms = 10^8 ns). -/
theorem claim_C9_witness :
    switchTimeoutNs 0 = 1000000000 ∧ switchTimeoutNs 100000000 = 100000000 :=
  ⟨claim_C9.1, claim_C9.2.2 100000000 (by decide)⟩

/-- C4: when the realtime loop does not clear do_switch within the
timeout, switch_controller_cb returns ERROR and clears all internal
request lists (activate, deactivate, to/from-chained-mode and both
command-interface request lists), and the roster stays exactly as the
realtime loop left it — transitions already applied before the timeout
are not rolled back. -/
theorem claim_C4 (availableCmd : List String)
    (rtControllers : List ControllerSpec) (s : SwitchState) :
    (awaitSwitchCompletion availableCmd false rtControllers s).1 = .error ∧
    (awaitSwitchCompletion availableCmd false rtControllers s).2.controllers
      = rtControllers ∧
    (awaitSwitchCompletion availableCmd false rtControllers s).2.activateRequest = [] ∧
    (awaitSwitchCompletion availableCmd false rtControllers s).2.deactivateRequest = [] ∧
    (awaitSwitchCompletion availableCmd false rtControllers s).2.toChainedModeRequest = [] ∧
    (awaitSwitchCompletion availableCmd false rtControllers s).2.fromChainedModeRequest = [] ∧
    (awaitSwitchCompletion availableCmd false rtControllers s).2.activateCmdItfRequest = [] ∧
    (awaitSwitchCompletion availableCmd false rtControllers s).2.deactivateCmdItfRequest = [] ∧
    (awaitSwitchCompletion availableCmd false rtControllers s).2.doSwitch = false := by
  refine ⟨?_, ?_, ?_, ?_, ?_, ?_, ?_, ?_, ?_⟩ <;>
    simp [awaitSwitchCompletion, clear_requests]

theorem list_controllers_go_strict_miss (roster : List ControllerSpec) :
    ∀ (names acc : List String) (res : ReturnType),
      (∃ m ∈ names, present roster m = false) →
      (list_controllers_go roster .strict names acc res).1 = .error := by
  intro names
  induction names with
  | nil =>
    intro acc res hex
    obtain ⟨m, hm, _⟩ := hex
    exact absurd hm (List.not_mem_nil m)
  | cons name rest ih =>
    intro acc res hex
    rw [list_controllers_go]
    cases hfind : findController roster name with
    | none => simp
    | some c =>
      obtain ⟨m, hm, hmiss⟩ := hex
      rcases List.mem_cons.mp hm with rfl | hmrest
      · rw [present, hfind] at hmiss
        exact absurd hmiss (by simp)
      · exact ih (acc ++ [name]) .ok ⟨m, hmrest, hmiss⟩

theorem list_controllers_go_strict_all (roster : List ControllerSpec) :
    ∀ (names acc : List String) (res : ReturnType),
      (∀ m ∈ names, present roster m = true) →
      list_controllers_go roster .strict names acc res =
        ((if names.isEmpty then res else .ok), acc ++ names) := by
  intro names
  induction names with
  | nil => intro acc res _; rw [list_controllers_go]; simp
  | cons name rest ih =>
    intro acc res hall
    rw [list_controllers_go]
    have hp : present roster name = true := hall name (by simp)
    rw [present, Option.isSome_iff_exists] at hp
    obtain ⟨c, hc⟩ := hp
    rw [hc]
    rw [ih (acc ++ [name]) .ok (fun m hm => hall m (by simp [hm]))]
    by_cases hrest : rest.isEmpty <;> simp [hrest]

theorem list_controllers_go_best_effort (roster : List ControllerSpec) :
    ∀ (names acc : List String) (res : ReturnType),
      list_controllers_go roster .bestEffort names acc res =
        ((if names.isEmpty then res
          else if acc.isEmpty && names.all (fun m => !(present roster m))
          then .error else .ok),
         acc ++ names.filter (present roster)) := by
  intro names
  induction names with
  | nil => intro acc res; rw [list_controllers_go]; simp
  | cons name rest ih =>
    intro acc res
    rw [list_controllers_go]
    cases hfind : findController roster name with
    | none =>
      have hp : present roster name = false := by
        rw [present, hfind]; rfl
      rw [if_neg (by decide)]
      rw [ih acc (if acc.isEmpty then .error else .ok)]
      simp only [List.isEmpty_cons, List.all_cons, hp, List.filter_cons, Bool.not_false,
        Bool.true_and, Bool.false_eq_true, if_false]
      by_cases hrest : rest.isEmpty
      · have : rest = [] := List.isEmpty_iff.mp hrest
        subst this
        by_cases hacc : acc.isEmpty <;> simp [hacc]
      · simp [hrest]
    | some c =>
      have hp : present roster name = true := by
        rw [present, hfind]; rfl
      rw [ih (acc ++ [name]) .ok]
      simp only [List.isEmpty_cons, List.filter_cons, hp, if_true,
        Bool.false_eq_true, if_false]
      have haccne : (acc ++ [name]).isEmpty = false := by
        simp
      rw [haccne]
      simp only [Bool.false_and, Bool.false_eq_true, if_false]
      have hcond : (acc.isEmpty &&
          ((name :: rest).all fun m => !present roster m)) = false := by
        simp [hp]
      rw [hcond]
      simp [ite_self]

/-- C6 (amended): a switch request naming a controller absent from the
roster fails in full under STRICT (ERROR, both request lists cleared,
nothing switched). Under BEST_EFFORT each missing name is dropped and
the request proceeds with the remaining controllers — except when a
nonempty activate or deactivate list consists entirely of missing
names, in which case the whole request fails with ERROR and cleared
lists. (The original claim omitted the all-names-missing exception.) -/
theorem claim_C6 (roster : List ControllerSpec)
    (deactivateNames activateNames : List String) :
    ((deactivateNames ++ activateNames).all (present roster) = false →
      resolveSwitchRequests roster .strict deactivateNames activateNames
        = (.error, [], [])) ∧
    (resolveSwitchRequests roster .bestEffort deactivateNames activateNames
      = (if !deactivateNames.isEmpty &&
            deactivateNames.all (fun m => !(present roster m))
         then (.error, [], [])
         else if !activateNames.isEmpty &&
            activateNames.all (fun m => !(present roster m))
         then (.error, [], [])
         else (.ok, deactivateNames.filter (present roster),
               activateNames.filter (present roster)))) := by
  constructor
  · intro hmiss
    have hex : ∃ m ∈ deactivateNames ++ activateNames,
        present roster m = false := by
      rcases List.all_eq_false.mp hmiss with ⟨m, hm, hnp⟩
      exact ⟨m, hm, by simpa using hnp⟩
    unfold resolveSwitchRequests
    rcases hex with ⟨m, hm, hmiss2⟩
    rcases List.mem_append.mp hm with hd | ha
    · have herr := list_controllers_go_strict_miss roster deactivateNames []
        .ok ⟨m, hd, hmiss2⟩
      simp only [herr]
      rfl
    · by_cases hdall : ∀ x ∈ deactivateNames, present roster x = true
      · rw [list_controllers_go_strict_all roster deactivateNames [] .ok hdall]
        have herr := list_controllers_go_strict_miss roster activateNames []
          .ok ⟨m, ha, hmiss2⟩
        by_cases hde : deactivateNames.isEmpty <;>
          · simp only [hde]
            simp only [if_true, if_false, ne_eq]
            simp [herr]
      · push_neg at hdall
        obtain ⟨x, hx, hxne⟩ := hdall
        have herr := list_controllers_go_strict_miss roster deactivateNames []
          .ok ⟨x, hx, by simpa using hxne⟩
        simp only [herr]
        rfl
  · unfold resolveSwitchRequests
    rw [list_controllers_go_best_effort roster deactivateNames [] .ok]
    rw [list_controllers_go_best_effort roster activateNames [] .ok]
    by_cases hde : deactivateNames.isEmpty
    · have : deactivateNames = [] := List.isEmpty_iff.mp hde
      subst this
      by_cases hae : activateNames.isEmpty
      · have : activateNames = [] := List.isEmpty_iff.mp hae
        subst this
        simp
      · by_cases haall : activateNames.all (fun m => !(present roster m)) <;>
          simp [hae, haall]
    · by_cases hdall : deactivateNames.all (fun m => !(present roster m))
      · simp [hde, hdall]
      · by_cases hae : activateNames.isEmpty
        · have : activateNames = [] := List.isEmpty_iff.mp hae
          subst this
          simp [hde, hdall]
        · by_cases haall : activateNames.all (fun m => !(present roster m)) <;>
            simp [hde, hdall, hae, haall]

/-- C6 counterexample: under BEST_EFFORT, a request whose activate list
holds only the missing name is NOT carried on with the remaining (none)
controllers — the resolution returns ERROR and the whole switch fails
(controller_manager.cpp lines 1449-1452: the running result is ERROR
whenever a name is missing while the request list is still empty),
refuting the claim that BEST_EFFORT always drops missing names and
proceeds. -/
theorem claim_C6_counterexample :
    resolveSwitchRequests
        [{ name := ("real"), lifecycle := .inactive, isChainable := false,
           isAsync := false, updateRate := 100,
           cmdItfCfg := ⟨.individual, []⟩, stateItfCfg := ⟨.nothing, []⟩,
           fallbackControllers := [], claimedInterfaces := [],
           lastUpdateCycleTime := 0, updateOutcome := .ok }]
        .bestEffort [] [("ghost")] = (.error, [], []) ∧
    (resolveSwitchRequests
        [{ name := ("real"), lifecycle := .inactive, isChainable := false,
           isAsync := false, updateRate := 100,
           cmdItfCfg := ⟨.individual, []⟩, stateItfCfg := ⟨.nothing, []⟩,
           fallbackControllers := [], claimedInterfaces := [],
           lastUpdateCycleTime := 0, updateOutcome := .ok }]
        .bestEffort [] [("ghost")]).1 ≠ .ok := by
  constructor
  · decide
  · decide

/-- Witness for C6: a STRICT request naming the missing controller
ghost next to the existing controller real fails in full. -/
theorem claim_C6_witness :
    resolveSwitchRequests
        [{ name := ("real"), lifecycle := .inactive, isChainable := false,
           isAsync := false, updateRate := 100,
           cmdItfCfg := ⟨.individual, []⟩, stateItfCfg := ⟨.nothing, []⟩,
           fallbackControllers := [], claimedInterfaces := [],
           lastUpdateCycleTime := 0, updateOutcome := .ok }]
        .strict [("real")] [("ghost")] = (.error, [], []) :=
  (claim_C6
    [{ name := ("real"), lifecycle := .inactive, isChainable := false,
       isAsync := false, updateRate := 100,
       cmdItfCfg := ⟨.individual, []⟩, stateItfCfg := ⟨.nothing, []⟩,
       fallbackControllers := [], claimedInterfaces := [],
       lastUpdateCycleTime := 0, updateOutcome := .ok }]
    [("real")] [("ghost")]).1 (by decide)

/-- C10: a load_controller call whose fallback_controllers parameter
list contains the controller's own name returns null and leaves the
roster unchanged — the controller is never added. -/
theorem claim_C10 (env : LoadEnv) (roster : List ControllerSpec)
    (controllerName controllerType : String)
    (hself : env.fallbackControllersParam.contains controllerName = true) :
    load_controller env roster controllerName controllerType
      = (none, roster) := by
  unfold load_controller
  have hne : env.fallbackControllersParam.isEmpty = false := by
    cases henv : env.fallbackControllersParam with
    | nil => rw [henv] at hself; simp at hself
    | cons x xs => rfl
  by_cases hav : env.availableClasses.contains controllerType
  · rw [hav, hne, hself]
    rfl
  · rw [Bool.eq_false_iff.mpr hav]
    rfl

/-- Witness for C10: loading the controller selfish, whose fallback
list names selfish itself, fails and adds nothing. -/
theorem claim_C10_witness :
    load_controller
      { availableClasses := [("my_pkg/MyController")],
        fallbackControllersParam := [("safe"), ("selfish")],
        nodeOptionsArgsParam := [], initSucceeds := true }
      [] ("selfish") ("my_pkg/MyController") = (none, []) :=
  claim_C10
    { availableClasses := [("my_pkg/MyController")],
      fallbackControllersParam := [("safe"), ("selfish")],
      nodeOptionsArgsParam := [], initSucceeds := true }
    [] ("selfish") ("my_pkg/MyController") (by decide)

theorem findController_name (controllers : List ControllerSpec)
    (n : String) (c : ControllerSpec)
    (h : findController controllers n = some c) : c.name = n := by
  have := List.find?_some h
  simpa using this

theorem check_preceding_error (controllers : List ControllerSpec)
    (stateItfCache refItfCache : List (String × List String))
    (activateRequest current : List String) (c pc : ControllerSpec)
    (p : String)
    (hchain : c.isChainable = true)
    (hp : p ∈ cacheLookup stateItfCache c.name ++ cacheLookup refItfCache c.name)
    (hpfind : findController controllers p = some pc)
    (hcond : (pc.lifecycle = .inactive ∧ activateRequest.contains p = true) ∨
      (pc.lifecycle = .active ∧ current.contains p = false)) :
    check_preceding_controllers_for_deactivate controllers stateItfCache
      refItfCache activateRequest current c = .error := by
  unfold check_preceding_controllers_for_deactivate
  rw [hchain]
  simp only [Bool.not_true, Bool.false_eq_true, if_false]
  have hany : (cacheLookup stateItfCache c.name ++
      cacheLookup refItfCache c.name).any (fun q =>
        match findController controllers q with
        | some pc =>
          (is_controller_inactive pc && activateRequest.contains q) ||
          (is_controller_active pc && !(current.contains q))
        | none => false) = true := by
    refine List.any_eq_true.mpr ⟨p, hp, ?_⟩
    rw [hpfind]
    show (is_controller_inactive pc && activateRequest.contains p ||
      is_controller_active pc && !current.contains p) = true
    rcases hcond with ⟨hst, hmem⟩ | ⟨hst, hnmem⟩
    · have h1 : is_controller_inactive pc = true := by
        simp [is_controller_inactive, hst]
      rw [h1, hmem]
      rfl
    · have h1 : is_controller_active pc = true := by
        simp [is_controller_active, hst]
      have h2 : is_controller_inactive pc = false := by
        simp [is_controller_inactive, hst]
      rw [h1, h2, hnmem]
      rfl
  rw [hany]
  rfl

theorem deactivateValidationGo_strict_error
    (controllers : List ControllerSpec)
    (stateItfCache refItfCache : List (String × List String))
    (activateRequest orig : List String) (d : String) (c : ControllerSpec)
    (hcfind : findController controllers d = some c)
    (hact : is_controller_active c = true)
    (hcheck : ∀ current : List String, (∀ x ∈ current, x ∈ orig) →
      check_preceding_controllers_for_deactivate controllers stateItfCache
        refItfCache activateRequest current c = .error) :
    ∀ (rest kept : List String), d ∈ rest →
      (∀ x ∈ kept, x ∈ orig) → (∀ x ∈ rest, x ∈ orig) →
      (deactivateValidationGo controllers stateItfCache refItfCache
        .strict activateRequest kept rest).1 = .error := by
  intro rest
  induction rest with
  | nil =>
    intro kept hd _ _
    exact absurd hd (List.not_mem_nil d)
  | cons name rest2 ih =>
    intro kept hd hkept hrest
    rw [deactivateValidationGo]
    by_cases hname : name = d
    · subst hname
      have hcur : ∀ x ∈ kept ++ name :: rest2, x ∈ orig := by
        intro x hx
        rcases List.mem_append.mp hx with hx | hx
        · exact hkept x hx
        · exact hrest x hx
      simp only [hcfind, hact, Bool.not_true, Bool.false_eq_true, if_false,
        hcheck (kept ++ name :: rest2) hcur]
      simp
    · have hd2 : d ∈ rest2 := by
        rcases List.mem_cons.mp hd with h | h
        · exact absurd h.symm hname
        · exact h
      by_cases hstat : (match findController controllers name with
        | some c2 =>
          if !is_controller_active c2 then ReturnType.error
          else check_preceding_controllers_for_deactivate controllers
            stateItfCache refItfCache activateRequest
            (kept ++ name :: rest2) c2
        | none => ReturnType.ok) = ReturnType.ok
      · rw [if_pos hstat]
        exact ih (kept ++ [name]) hd2
          (by
            intro x hx
            rcases List.mem_append.mp hx with hx | hx
            · exact hkept x hx
            · rw [List.mem_singleton.mp hx]
              exact hrest name (by simp))
          (fun x hx => hrest x (by simp [hx]))
      · rw [if_neg hstat]

/-- C5: a STRICT switch request that asks to deactivate a chainable,
active controller d one of whose cached preceding controllers p is in
the roster and is either ACTIVE without being listed for deactivation,
or INACTIVE while listed for activation, is rejected by the
deactivation-validation phase: the whole switch fails with ERROR, every
request list is cleared, and no controller state is changed. -/
theorem claim_C5 (s : SwitchState)
    (stateItfCache refItfCache : List (String × List String))
    (d p : String) (c pc : ControllerSpec)
    (hd : d ∈ s.deactivateRequest)
    (hcfind : findController s.controllers d = some c)
    (hchain : c.isChainable = true)
    (hact : c.lifecycle = .active)
    (hp : p ∈ cacheLookup stateItfCache d ++ cacheLookup refItfCache d)
    (hpfind : findController s.controllers p = some pc)
    (hcond : (pc.lifecycle = .active ∧ p ∉ s.deactivateRequest) ∨
      (pc.lifecycle = .inactive ∧ p ∈ s.activateRequest)) :
    (deactivateValidationPhase s stateItfCache refItfCache .strict).1
        = .error ∧
    (deactivateValidationPhase s stateItfCache refItfCache
        .strict).2.controllers = s.controllers ∧
    (deactivateValidationPhase s stateItfCache refItfCache
        .strict).2.activateRequest = [] ∧
    (deactivateValidationPhase s stateItfCache refItfCache
        .strict).2.deactivateRequest = [] ∧
    (deactivateValidationPhase s stateItfCache refItfCache
        .strict).2.toChainedModeRequest = [] ∧
    (deactivateValidationPhase s stateItfCache refItfCache
        .strict).2.fromChainedModeRequest = [] := by
  have hname : c.name = d := findController_name _ _ _ hcfind
  have hgo : (deactivateValidationGo s.controllers stateItfCache refItfCache
      .strict s.activateRequest [] s.deactivateRequest).1 = .error := by
    refine deactivateValidationGo_strict_error s.controllers stateItfCache
      refItfCache s.activateRequest s.deactivateRequest d c hcfind
      (by simp [is_controller_active, hact]) ?_
      s.deactivateRequest [] hd (by simp) (fun x hx => hx)
    intro current hcur
    refine check_preceding_error s.controllers stateItfCache refItfCache
      s.activateRequest current c pc p hchain (by rw [hname]; exact hp)
      hpfind ?_
    rcases hcond with ⟨hst, hnd⟩ | ⟨hst, hmem⟩
    · refine Or.inr ⟨hst, ?_⟩
      by_contra hcontains
      have : current.contains p = true :=
        Bool.not_eq_false _ |>.mp hcontains
      have hpc : p ∈ current := by simpa using this
      exact hnd (hcur p hpc)
    · exact Or.inl ⟨hst, by simpa using hmem⟩
  have hphase : deactivateValidationPhase s stateItfCache refItfCache
      .strict = (.error, clear_requests s) := by
    unfold deactivateValidationPhase
    simp [hgo]
  rw [hphase]
  simp [clear_requests]

/-- Witness for C5, mirroring spec scenario S3: pid1 is chainable and
active, its preceding controller traj is active and not being
deactivated; STRICT deactivation of pid1 fails with cleared requests
and an unchanged roster. -/
theorem claim_C5_witness :
    (deactivateValidationPhase
        { controllers :=
            [{ name := ("traj"), lifecycle := .active, isChainable := false,
               isAsync := false, updateRate := 100,
               cmdItfCfg := ⟨.individual, [("pid1/position_ref")]⟩,
               stateItfCfg := ⟨.nothing, []⟩,
               fallbackControllers := [], claimedInterfaces := [],
               lastUpdateCycleTime := 0, updateOutcome := .ok },
             { name := ("pid1"), lifecycle := .active, isChainable := true,
               isAsync := false, updateRate := 100,
               cmdItfCfg := ⟨.individual, [("joint1/position_cmd")]⟩,
               stateItfCfg := ⟨.nothing, []⟩,
               fallbackControllers := [], claimedInterfaces := [],
               lastUpdateCycleTime := 0, updateOutcome := .ok }],
          activateRequest := [], deactivateRequest := [("pid1")],
          toChainedModeRequest := [], fromChainedModeRequest := [],
          activateCmdItfRequest := [], deactivateCmdItfRequest := [],
          doSwitch := false, exportedStateAvailableFor := [],
          referenceAvailableFor := [] }
        [] [(("pid1"), [("traj")])] .strict).1 = .error :=
  (claim_C5 _ [] [(("pid1"), [("traj")])] ("pid1") ("traj")
    { name := ("pid1"), lifecycle := .active, isChainable := true,
      isAsync := false, updateRate := 100,
      cmdItfCfg := ⟨.individual, [("joint1/position_cmd")]⟩,
      stateItfCfg := ⟨.nothing, []⟩,
      fallbackControllers := [], claimedInterfaces := [],
      lastUpdateCycleTime := 0, updateOutcome := .ok }
    { name := ("traj"), lifecycle := .active, isChainable := false,
      isAsync := false, updateRate := 100,
      cmdItfCfg := ⟨.individual, [("pid1/position_ref")]⟩,
      stateItfCfg := ⟨.nothing, []⟩,
      fallbackControllers := [], claimedInterfaces := [],
      lastUpdateCycleTime := 0, updateOutcome := .ok }
    (by decide) (by decide) rfl rfl (by decide) (by decide)
    (Or.inl ⟨rfl, by decide⟩)).1

/-- C3 counterexample, refuting the claimed if-and-only-if in both
directions on one concrete cycle (manager at 100 Hz, trigger clock at
t = 1 s, `time` argument equal to the zero time, a switch pending that
deactivates controller a): active async controller a runs at the
manager rate — the claimed condition holds — yet is skipped because it
is async and pending deactivation; active controller b at 50 Hz with
zero elapsed period satisfies none of the claimed conditions yet is
triggered through the zero-time-argument escape. -/
theorem claim_C3_counterexample :
    (controllerTriggered
        { managerRate := 100, clockStarted := true, timeArg := 0,
          nowClock := 1000000000, doSwitch := true,
          deactivateRequest := [("a")], availableCmd := [] }
        { name := ("a"), lifecycle := .active, isChainable := false,
          isAsync := true, updateRate := 100,
          cmdItfCfg := ⟨.individual, []⟩, stateItfCfg := ⟨.nothing, []⟩,
          fallbackControllers := [], claimedInterfaces := [],
          lastUpdateCycleTime := 1000000000, updateOutcome := .ok } = false ∧
      specGateOriginal
        { managerRate := 100, clockStarted := true, timeArg := 0,
          nowClock := 1000000000, doSwitch := true,
          deactivateRequest := [("a")], availableCmd := [] }
        { name := ("a"), lifecycle := .active, isChainable := false,
          isAsync := true, updateRate := 100,
          cmdItfCfg := ⟨.individual, []⟩, stateItfCfg := ⟨.nothing, []⟩,
          fallbackControllers := [], claimedInterfaces := [],
          lastUpdateCycleTime := 1000000000, updateOutcome := .ok } = true) ∧
    (controllerTriggered
        { managerRate := 100, clockStarted := true, timeArg := 0,
          nowClock := 1000000000, doSwitch := true,
          deactivateRequest := [("a")], availableCmd := [] }
        { name := ("b"), lifecycle := .active, isChainable := false,
          isAsync := false, updateRate := 50,
          cmdItfCfg := ⟨.individual, []⟩, stateItfCfg := ⟨.nothing, []⟩,
          fallbackControllers := [], claimedInterfaces := [],
          lastUpdateCycleTime := 1000000000, updateOutcome := .ok } = true ∧
      specGateOriginal
        { managerRate := 100, clockStarted := true, timeArg := 0,
          nowClock := 1000000000, doSwitch := true,
          deactivateRequest := [("a")], availableCmd := [] }
        { name := ("b"), lifecycle := .active, isChainable := false,
          isAsync := false, updateRate := 50,
          cmdItfCfg := ⟨.individual, []⟩, stateItfCfg := ⟨.nothing, []⟩,
          fallbackControllers := [], claimedInterfaces := [],
          lastUpdateCycleTime := 1000000000, updateOutcome := .ok } = false) := by
  refine ⟨⟨?_, ?_⟩, ?_, ?_⟩
  · decide
  · decide
  · decide
  · norm_num [specGateOriginal, firstUpdateCycle, currentTime]

/-- C3 (amended): in every control cycle, an ACTIVE controller's
trigger_update is invoked if and only if it is not an async controller
pending deactivation by an in-flight switch, and at least one of: its
update rate is at least the manager rate, the cycle's `time` argument
is the zero time, it is the first cycle after activation, or
(now − last_update_cycle_time) · controller_rate ≥ 0.99. -/
theorem claim_C3 (ctx : UpdateCycleContext) (c : ControllerSpec)
    (hact : is_controller_active c = true) :
    controllerTriggered ctx c =
      (!(skipAsyncDeactivating ctx c) && specGateAmended ctx c) := by
  unfold controllerTriggered
  rw [hact, Bool.true_and]
  by_cases hskip : skipAsyncDeactivating ctx c
  · rw [hskip]
    rfl
  · rw [Bool.eq_false_iff.mpr hskip, Bool.not_false, Bool.true_and,
      Bool.true_and]
    unfold controllerGo specGateAmended runControllerAtCmRate
    by_cases hfirst : firstUpdateCycle c
    · rw [hfirst]
      simp
    · rw [Bool.eq_false_iff.mpr hfirst]
      have hgate : rateGate ctx c =
          decide (((currentTime ctx - c.lastUpdateCycleTime : Int) : Rat)
            / 1000000000 * (c.updateRate : Rat) ≥ 99 / 100) := by
        unfold rateGate controllerActualPeriod lastTimeRef
        rw [Bool.eq_false_iff.mpr hfirst]
        simp only [Bool.false_eq_true, if_false]
        refine decide_eq_decide.mpr ?_
        have hprod : ((currentTime ctx - c.lastUpdateCycleTime : Int) : Rat) *
            (c.updateRate : Rat) =
            (((currentTime ctx - c.lastUpdateCycleTime) *
              (c.updateRate : Int) : Int) : Rat) := by
          push_cast
          ring
        rw [ge_iff_le, ge_iff_le, div_mul_eq_mul_div,
          le_div_iff₀ (by norm_num : (0:Rat) < 1000000000), hprod,
          show ((99:Rat)/100 * 1000000000) = ((990000000 : Int) : Rat) by
            norm_num,
          Int.cast_le]
        generalize (currentTime ctx - c.lastUpdateCycleTime) *
          (c.updateRate : Int) = t
        omega
      rw [hgate]
      cases (decide (c.updateRate ≥ ctx.managerRate)) <;>
        cases (decide (ctx.timeArg = 0)) <;>
        cases (decide (((currentTime ctx - c.lastUpdateCycleTime : Int) : Rat)
          / 1000000000 * (c.updateRate : Rat) ≥ 99 / 100)) <;> rfl

/-- Witness for C3 at a concrete active controller (50 Hz under a
100 Hz manager, 20 ms elapsed → triggered: 0.02 · 50 = 1 ≥ 0.99). -/
theorem claim_C3_witness :
    controllerTriggered
        { managerRate := 100, clockStarted := true, timeArg := 500000000,
          nowClock := 1020000000, doSwitch := false,
          deactivateRequest := [], availableCmd := [] }
        { name := ("c50"), lifecycle := .active, isChainable := false,
          isAsync := false, updateRate := 50,
          cmdItfCfg := ⟨.individual, []⟩, stateItfCfg := ⟨.nothing, []⟩,
          fallbackControllers := [], claimedInterfaces := [],
          lastUpdateCycleTime := 1000000000, updateOutcome := .ok } =
      (!(skipAsyncDeactivating
          { managerRate := 100, clockStarted := true, timeArg := 500000000,
            nowClock := 1020000000, doSwitch := false,
            deactivateRequest := [], availableCmd := [] }
          { name := ("c50"), lifecycle := .active, isChainable := false,
            isAsync := false, updateRate := 50,
            cmdItfCfg := ⟨.individual, []⟩, stateItfCfg := ⟨.nothing, []⟩,
            fallbackControllers := [], claimedInterfaces := [],
            lastUpdateCycleTime := 1000000000, updateOutcome := .ok }) &&
        specGateAmended
          { managerRate := 100, clockStarted := true, timeArg := 500000000,
            nowClock := 1020000000, doSwitch := false,
            deactivateRequest := [], availableCmd := [] }
          { name := ("c50"), lifecycle := .active, isChainable := false,
            isAsync := false, updateRate := 50,
            cmdItfCfg := ⟨.individual, []⟩, stateItfCfg := ⟨.nothing, []⟩,
            fallbackControllers := [], claimedInterfaces := [],
            lastUpdateCycleTime := 1000000000, updateOutcome := .ok }) :=
  claim_C3 _ _ (by decide)

theorem mem_add_item_iff (l : List String) (x u : String) :
    u ∈ add_item l x ↔ u ∈ l ∨ u = x := by
  unfold add_item
  by_cases hc : l.contains x
  · rw [if_pos hc]
    constructor
    · exact Or.inl
    · rintro (h | rfl)
      · exact h
      · simpa using hc
  · rw [if_neg hc]
    simp

theorem mem_foldl_add_item_iff (l : List String) :
    ∀ (acc : List String) (u : String),
      u ∈ l.foldl add_item acc ↔ u ∈ acc ∨ u ∈ l := by
  induction l with
  | nil => intro acc u; simp
  | cons x xs ih =>
    intro acc u
    rw [List.foldl_cons, ih, mem_add_item_iff]
    constructor
    · rintro ((h | rfl) | h)
      · exact Or.inl h
      · exact Or.inr (by simp)
      · exact Or.inr (by simp [h])
    · rintro (h | h)
      · exact Or.inl (Or.inl h)
      · rcases List.mem_cons.mp h with rfl | h2
        · exact Or.inl (Or.inr rfl)
        · exact Or.inr h2

theorem findController_map (f : ControllerSpec → ControllerSpec)
    (hf : ∀ x, (f x).name = x.name) (n : String) :
    ∀ cs : List ControllerSpec,
      findController (cs.map f) n = Option.map f (findController cs n) := by
  intro cs
  induction cs with
  | nil => rfl
  | cons x xs ih =>
    unfold findController at ih ⊢
    rw [List.map_cons, List.find?_cons, List.find?_cons]
    by_cases hx : x.name = n
    · have h1 : decide ((f x).name = n) = true := by simp [hf, hx]
      have h2 : decide (x.name = n) = true := by simp [hx]
      rw [h1, h2]
      rfl
    · have h1 : decide ((f x).name = n) = false := by simp [hf, hx]
      have h2 : decide (x.name = n) = false := by simp [hx]
      rw [h1, h2]
      exact ih

theorem findController_of_mem_nodup (cs : List ControllerSpec)
    (hnodup : (cs.map ControllerSpec.name).Nodup) (g : ControllerSpec)
    (hg : g ∈ cs) : findController cs g.name = some g := by
  induction cs with
  | nil => exact absurd hg (List.not_mem_nil g)
  | cons x xs ih =>
    unfold findController
    rw [List.find?_cons]
    rcases List.mem_cons.mp hg with rfl | hgs
    · have h1 : decide (g.name = g.name) = true := by simp
      rw [h1]
    · by_cases hx : x.name = g.name
      · exfalso
        rw [List.map_cons, List.nodup_cons] at hnodup
        exact hnodup.1 (hx ▸ List.mem_map_of_mem ControllerSpec.name hgs)
      · have h1 : decide (x.name = g.name) = false := by simp [hx]
        rw [h1]
        exact ih (by
          rw [List.map_cons, List.nodup_cons] at hnodup
          exact hnodup.2) hgs

theorem command_interface_is_claimed_map (f : ControllerSpec → ControllerSpec)
    (hf : ∀ x, (f x).claimedInterfaces = x.claimedInterfaces)
    (cs : List ControllerSpec) (itf : String) :
    command_interface_is_claimed (cs.map f) itf =
      command_interface_is_claimed cs itf := by
  unfold command_interface_is_claimed
  rw [List.any_map]
  congr 1
  funext x
  simp [hf]

theorem foldl_mem_preserved {α : Type} (s : List String → α → List String)
    (hs : ∀ acc x u, u ∈ acc → u ∈ s acc x) :
    ∀ (l : List α) (acc : List String) (u : String),
      u ∈ acc → u ∈ l.foldl s acc := by
  intro l
  induction l with
  | nil => intro acc u hu; simpa using hu
  | cons x xs ih =>
    intro acc u hu
    exact ih (s acc x) u (hs acc x u hu)

theorem foldl_prop_preserved_mem {α : Type} (Q : String → Prop) :
    ∀ (l : List α) (s : List String → α → List String),
      (∀ acc x, x ∈ l → (∀ u ∈ acc, Q u) → ∀ u ∈ s acc x, Q u) →
      ∀ acc, (∀ u ∈ acc, Q u) → ∀ u ∈ l.foldl s acc, Q u := by
  intro l
  induction l with
  | nil => intro s _ acc hacc u hu; exact hacc u (by simpa using hu)
  | cons x xs ih =>
    intro s hs acc hacc u hu
    refine ih s (fun acc2 y hy => hs acc2 y (by simp [hy])) (s acc x) ?_ u hu
    exact hs acc x (by simp) hacc

theorem usersScanStep_preserved (cmdItf : String) (acc2 : List String)
    (c : ControllerSpec) (u : String) (hu : u ∈ acc2) :
    u ∈ usersScanStep cmdItf acc2 c := by
  unfold usersScanStep
  by_cases hcond : is_controller_active c && c.cmdItfCfg.names.contains cmdItf
  · rw [if_pos hcond]
    exact (mem_add_item_iff _ _ _).mpr (Or.inl hu)
  · rw [if_neg hcond]
    exact hu

theorem usersScan_complete (cmdItf : String) :
    ∀ (l : List ControllerSpec) (acc : List String) (x : ControllerSpec),
      x ∈ l → is_controller_active x = true →
      x.cmdItfCfg.names.contains cmdItf = true →
      x.name ∈ l.foldl (usersScanStep cmdItf) acc := by
  intro l
  induction l with
  | nil => intro acc x hx; exact absurd hx (List.not_mem_nil x)
  | cons y ys ih =>
    intro acc x hx hact hcont
    rcases List.mem_cons.mp hx with rfl | hxs
    · rw [List.foldl_cons]
      refine foldl_mem_preserved (usersScanStep cmdItf)
        (usersScanStep_preserved cmdItf) ys _ x.name ?_
      unfold usersScanStep
      rw [if_pos (by rw [hact, hcont]; rfl)]
      exact (mem_add_item_iff _ _ _).mpr (Or.inr rfl)
    · exact ih _ x hxs hact hcont

theorem activeUsers_preserved (fb : String) (cs : List ControllerSpec)
    (acc : List String) (u : String) (hu : u ∈ acc) :
    u ∈ get_active_controllers_using_command_interfaces_of_controller
      fb cs acc := by
  unfold get_active_controllers_using_command_interfaces_of_controller
  cases hfind : findController cs fb with
  | none => exact hu
  | some target =>
    refine foldl_mem_preserved _ ?_ target.cmdItfCfg.names acc u hu
    intro acc1 cmdItf w hw
    exact foldl_mem_preserved (usersScanStep cmdItf)
      (usersScanStep_preserved cmdItf) cs acc1 w hw

theorem activeUsers_complete (fb : String) (cs : List ControllerSpec)
    (target x : ControllerSpec) (itf : String)
    (hfind : findController cs fb = some target)
    (hitf : itf ∈ target.cmdItfCfg.names)
    (hx : x ∈ cs) (hact : is_controller_active x = true)
    (hcont : x.cmdItfCfg.names.contains itf = true) :
    ∀ acc : List String,
      x.name ∈ get_active_controllers_using_command_interfaces_of_controller
        fb cs acc := by
  have key : ∀ (names : List String), itf ∈ names → ∀ acc : List String,
      x.name ∈ names.foldl
        (fun acc1 cmdItf => cs.foldl (usersScanStep cmdItf) acc1) acc := by
    intro names
    induction names with
    | nil => intro h; exact absurd h (List.not_mem_nil itf)
    | cons i is ih =>
      intro hmem acc
      rw [List.foldl_cons]
      rcases List.mem_cons.mp hmem with rfl | hii
      · refine foldl_mem_preserved _ ?_ is _ x.name
          (usersScan_complete itf cs acc x hx hact hcont)
        intro acc1 cmdItf w hw
        exact foldl_mem_preserved (usersScanStep cmdItf)
          (usersScanStep_preserved cmdItf) cs acc1 w hw
      · exact ih hii _
  intro acc
  unfold get_active_controllers_using_command_interfaces_of_controller
  rw [hfind]
  exact key target.cmdItfCfg.names hitf acc

theorem fallbackPush_users_preserved (cs : List ControllerSpec) :
    ∀ (l : List String) (acc : List String × List String) (u : String),
      u ∈ acc.2 → u ∈ (l.foldl (fallbackPushStep cs) acc).2 := by
  intro l
  induction l with
  | nil => intro acc u hu; simpa using hu
  | cons fb fbl ih =>
    intro acc u hu
    rw [List.foldl_cons]
    exact ih _ u (activeUsers_preserved fb cs acc.2 u hu)

theorem collectFallbacksStep_users_preserved (cs : List ControllerSpec)
    (acc : List String × List String) (failed : String) (u : String)
    (hu : u ∈ acc.2) : u ∈ (collectFallbacksStep cs acc failed).2 := by
  unfold collectFallbacksStep
  cases hfind : findController cs failed with
  | none => exact hu
  | some fc => exact fallbackPush_users_preserved cs fc.fallbackControllers acc u hu

theorem fallbackPush_invariant (cs : List ControllerSpec)
    (f : String) (target x : ControllerSpec) (itf : String)
    (hfind : findController cs f = some target)
    (hitf : itf ∈ target.cmdItfCfg.names)
    (hx : x ∈ cs) (hact : is_controller_active x = true)
    (hcont : x.cmdItfCfg.names.contains itf = true) :
    ∀ (l : List String) (acc : List String × List String),
      (f ∈ acc.1 → x.name ∈ acc.2) →
      (f ∈ (l.foldl (fallbackPushStep cs) acc).1 →
        x.name ∈ (l.foldl (fallbackPushStep cs) acc).2) := by
  intro l
  induction l with
  | nil => intro acc h; simpa using h
  | cons fb fbl ih =>
    intro acc h
    rw [List.foldl_cons]
    refine ih (fallbackPushStep cs acc fb) ?_
    intro hmem
    unfold fallbackPushStep at hmem ⊢
    rcases List.mem_append.mp hmem with hm | hm
    · exact activeUsers_preserved fb cs acc.2 x.name (h hm)
    · have hfb : fb = f := (List.mem_singleton.mp hm).symm
      subst hfb
      exact activeUsers_complete fb cs target x itf hfind hitf hx hact
        hcont acc.2

theorem collectFallbacks_invariant (cs : List ControllerSpec)
    (f : String) (target x : ControllerSpec) (itf : String)
    (hfind : findController cs f = some target)
    (hitf : itf ∈ target.cmdItfCfg.names)
    (hx : x ∈ cs) (hact : is_controller_active x = true)
    (hcont : x.cmdItfCfg.names.contains itf = true) :
    ∀ (errsL : List String) (acc : List String × List String),
      (f ∈ acc.1 → x.name ∈ acc.2) →
      (f ∈ (errsL.foldl (collectFallbacksStep cs) acc).1 →
        x.name ∈ (errsL.foldl (collectFallbacksStep cs) acc).2) := by
  intro errsL
  induction errsL with
  | nil => intro acc h; simpa using h
  | cons e es ih =>
    intro acc h
    rw [List.foldl_cons]
    refine ih (collectFallbacksStep cs acc e) ?_
    unfold collectFallbacksStep
    cases hfinde : findController cs e with
    | none => exact h
    | some fc =>
      exact fallbackPush_invariant cs f target x itf hfind hitf hx hact
        hcont fc.fallbackControllers acc h

theorem collectFallbacks_users_complete (cs : List ControllerSpec)
    (errs : List String) (f : String) (target x : ControllerSpec)
    (itf : String)
    (hfind : findController cs f = some target)
    (hitf : itf ∈ target.cmdItfCfg.names)
    (hx : x ∈ cs) (hact : is_controller_active x = true)
    (hcont : x.cmdItfCfg.names.contains itf = true)
    (hf : f ∈ (collectFallbacks cs errs).1) :
    x.name ∈ (collectFallbacks cs errs).2 := by
  unfold collectFallbacks at hf ⊢
  exact collectFallbacks_invariant cs f target x itf hfind hitf hx hact
    hcont errs ([], []) (fun h => absurd h (List.not_mem_nil f)) hf

theorem activeUsers_prop (cs : List ControllerSpec) (fb : String)
    (acc : List String)
    (hacc : ∀ u ∈ acc, ∃ y ∈ cs, y.name = u ∧ is_controller_active y = true) :
    ∀ u ∈ get_active_controllers_using_command_interfaces_of_controller
      fb cs acc, ∃ y ∈ cs, y.name = u ∧ is_controller_active y = true := by
  unfold get_active_controllers_using_command_interfaces_of_controller
  cases hfind : findController cs fb with
  | none => exact hacc
  | some target =>
    refine foldl_prop_preserved_mem _ target.cmdItfCfg.names _ ?_ acc hacc
    intro acc1 cmdItf _ hacc1
    refine foldl_prop_preserved_mem _ cs (usersScanStep cmdItf) ?_ acc1 hacc1
    intro acc2 y hy hacc2 u hu
    unfold usersScanStep at hu
    by_cases hcond : is_controller_active y && y.cmdItfCfg.names.contains cmdItf
    · rw [if_pos hcond] at hu
      rcases (mem_add_item_iff _ _ _).mp hu with hu2 | rfl
      · exact hacc2 u hu2
      · have hcond2 := hcond
        simp only [Bool.and_eq_true] at hcond2
        exact ⟨y, hy, rfl, hcond2.1⟩
    · rw [if_neg hcond] at hu
      exact hacc2 u hu

theorem collectFallbacks_users_active (cs : List ControllerSpec)
    (errs : List String) :
    ∀ u ∈ (collectFallbacks cs errs).2,
      ∃ y ∈ cs, y.name = u ∧ is_controller_active y = true := by
  unfold collectFallbacks
  have hgen : ∀ (errsL : List String) (acc : List String × List String),
      (∀ u ∈ acc.2, ∃ y ∈ cs, y.name = u ∧ is_controller_active y = true) →
      ∀ u ∈ (errsL.foldl (collectFallbacksStep cs) acc).2,
        ∃ y ∈ cs, y.name = u ∧ is_controller_active y = true := by
    intro errsL
    induction errsL with
    | nil => intro acc hacc; simpa using hacc
    | cons e es ih =>
      intro acc hacc
      rw [List.foldl_cons]
      refine ih (collectFallbacksStep cs acc e) ?_
      unfold collectFallbacksStep
      cases hfinde : findController cs e with
      | none => exact hacc
      | some fc =>
        have hinner : ∀ (l : List String) (acc2 : List String × List String),
            (∀ u ∈ acc2.2, ∃ y ∈ cs, y.name = u ∧
              is_controller_active y = true) →
            ∀ u ∈ (l.foldl (fallbackPushStep cs) acc2).2,
              ∃ y ∈ cs, y.name = u ∧ is_controller_active y = true := by
          intro l
          induction l with
          | nil => intro acc2 hacc2; simpa using hacc2
          | cons fb fbl ihl =>
            intro acc2 hacc2
            rw [List.foldl_cons]
            refine ihl (fallbackPushStep cs acc2 fb) ?_
            unfold fallbackPushStep
            exact activeUsers_prop cs fb acc2.2 hacc2
        exact hinner fc.fallbackControllers acc hacc
  exact hgen errs ([], []) (by intro u hu; exact absurd hu (List.not_mem_nil u))

theorem controllerStepTime_name (ctx : UpdateCycleContext)
    (c : ControllerSpec) : (controllerStepTime ctx c).name = c.name := by
  unfold controllerStepTime
  split <;> rfl

theorem controllerStepTime_lifecycle (ctx : UpdateCycleContext)
    (c : ControllerSpec) :
    (controllerStepTime ctx c).lifecycle = c.lifecycle := by
  unfold controllerStepTime
  split <;> rfl

theorem controllerStepTime_claims (ctx : UpdateCycleContext)
    (c : ControllerSpec) :
    (controllerStepTime ctx c).claimedInterfaces = c.claimedInterfaces := by
  unfold controllerStepTime
  split <;> rfl

theorem controllerStepTime_cfg (ctx : UpdateCycleContext)
    (c : ControllerSpec) :
    (controllerStepTime ctx c).cmdItfCfg = c.cmdItfCfg := by
  unfold controllerStepTime
  split <;> rfl

theorem deactivateElem_name (names : List String) (c : ControllerSpec) :
    (deactivateElem names c).name = c.name := by
  unfold deactivateElem
  split <;> rfl

theorem deactivateElem_cfg (names : List String) (c : ControllerSpec) :
    (deactivateElem names c).cmdItfCfg = c.cmdItfCfg := by
  unfold deactivateElem
  split <;> rfl

theorem resetTimeElem_name (n : String) (x : ControllerSpec) :
    (resetTimeElem n x).name = x.name := by
  unfold resetTimeElem
  split <;> rfl

theorem resetTimeElem_claims (n : String) (x : ControllerSpec) :
    (resetTimeElem n x).claimedInterfaces = x.claimedInterfaces := by
  unfold resetTimeElem
  split <;> rfl

theorem activateElem_name (n : String) (cmds : List String)
    (x : ControllerSpec) : (activateElem n cmds x).name = x.name := by
  unfold activateElem
  split <;> rfl

theorem findController_stepTime (ctx : UpdateCycleContext)
    (cs : List ControllerSpec) (n : String) :
    findController (cs.map (controllerStepTime ctx)) n =
      Option.map (controllerStepTime ctx) (findController cs n) :=
  findController_map (controllerStepTime ctx)
    (controllerStepTime_name ctx) n cs

theorem findController_deactivate (cs : List ControllerSpec)
    (names : List String) (n : String) :
    findController (deactivate_controllers cs names) n =
      Option.map (deactivateElem names) (findController cs n) :=
  findController_map (deactivateElem names) (deactivateElem_name names) n cs

theorem activateBoth_name (n : String) (cmds : List String)
    (x : ControllerSpec) : (activateBoth n cmds x).name = x.name := by
  unfold activateBoth
  rw [activateElem_name, resetTimeElem_name]

theorem activateBoth_ne (n : String) (cmds : List String)
    (x : ControllerSpec) (hx : ¬ x.name = n) : activateBoth n cmds x = x := by
  unfold activateBoth resetTimeElem
  rw [if_neg hx]
  unfold activateElem
  rw [if_neg hx]

theorem activateBoth_lifecycle_self (n : String) (cmds : List String)
    (x : ControllerSpec) (hx : x.name = n) :
    (activateBoth n cmds x).lifecycle = .active := by
  unfold activateBoth resetTimeElem
  rw [if_pos hx]
  unfold activateElem
  rw [if_pos (by exact hx)]

theorem activateBoth_claims_self (n : String) (cmds : List String)
    (x : ControllerSpec) (hx : x.name = n) :
    (activateBoth n cmds x).claimedInterfaces = cmds := by
  unfold activateBoth resetTimeElem
  rw [if_pos hx]
  unfold activateElem
  rw [if_pos (by exact hx)]

theorem activate_one_success (avail : List String)
    (cs : List ControllerSpec) (f : String) (fc : ControllerSpec)
    (hfind : findController cs f = some fc)
    (hcfg : fc.cmdItfCfg.cfgType = .individual)
    (hunclaimed : ∀ itf ∈ fc.cmdItfCfg.names,
      command_interface_is_claimed cs itf = false) :
    activate_one avail cs f =
      cs.map (activateBoth f fc.cmdItfCfg.names) := by
  unfold activate_one
  rw [hfind]
  have hex : extract_command_interface_names avail fc.cmdItfCfg =
      fc.cmdItfCfg.names := by
    unfold extract_command_interface_names
    rw [hcfg]
  show (let reset := cs.map (resetTimeElem f)
    let cmdNames := extract_command_interface_names avail fc.cmdItfCfg
    if cmdNames.any (command_interface_is_claimed reset) then reset
    else reset.map (activateElem f cmdNames)) = _
  simp only [hex]
  have hanyf : (fc.cmdItfCfg.names).any
      (command_interface_is_claimed (cs.map (resetTimeElem f))) = false := by
    refine List.any_eq_false.mpr ?_
    intro itf hitf
    rw [command_interface_is_claimed_map (resetTimeElem f)
      (resetTimeElem_claims f) cs itf, hunclaimed itf hitf]
    exact Bool.false_ne_true
  rw [hanyf]
  simp only [Bool.false_eq_true, if_false, List.map_map]
  rfl

theorem activate_one_ne (avail : List String) (cs : List ControllerSpec)
    (f n : String) (hne : n ≠ f) :
    findController (activate_one avail cs f) n = findController cs n := by
  unfold activate_one
  cases hfind : findController cs f with
  | none => rfl
  | some fc =>
    show findController
      (let reset := cs.map (resetTimeElem f)
       let cmdNames := extract_command_interface_names avail fc.cmdItfCfg
       if cmdNames.any (command_interface_is_claimed reset) then reset
       else reset.map (activateElem f cmdNames)) n = _
    have hentry : ∀ c : ControllerSpec, c.name = n → resetTimeElem f c = c := by
      intro c hc
      unfold resetTimeElem
      rw [if_neg (by rw [hc]; exact hne)]
    by_cases hconf : (extract_command_interface_names avail fc.cmdItfCfg).any
        (command_interface_is_claimed (cs.map (resetTimeElem f)))
    · simp only [hconf, if_true]
      rw [findController_map (resetTimeElem f) (resetTimeElem_name f) n cs]
      cases hfind2 : findController cs n with
      | none => rfl
      | some c =>
        have hcn : c.name = n := findController_name cs n c hfind2
        show some (resetTimeElem f c) = some c
        rw [hentry c hcn]
    · simp only [hconf, Bool.false_eq_true, if_false]
      rw [findController_map (activateElem f _)
        (activateElem_name f _) n (cs.map (resetTimeElem f)),
        findController_map (resetTimeElem f) (resetTimeElem_name f) n cs]
      cases hfind2 : findController cs n with
      | none => rfl
      | some c =>
        have hcn : c.name = n := findController_name cs n c hfind2
        show some (activateElem f
          (extract_command_interface_names avail fc.cmdItfCfg)
          (resetTimeElem f c)) = some c
        rw [hentry c hcn]
        unfold activateElem
        rw [if_neg (by rw [hcn]; exact hne)]

theorem activate_controllers_spec (avail : List String) :
    ∀ (toProcess : List String) (cs : List ControllerSpec),
      toProcess.Nodup →
      (∀ f ∈ toProcess, ∃ fc, findController cs f = some fc ∧
        fc.lifecycle = .inactive ∧ fc.claimedInterfaces = [] ∧
        fc.cmdItfCfg.cfgType = .individual ∧
        (∀ itf ∈ fc.cmdItfCfg.names,
          command_interface_is_claimed cs itf = false)) →
      (∀ f g, f ∈ toProcess → g ∈ toProcess → f ≠ g →
        ∀ fcf fcg, findController cs f = some fcf →
          findController cs g = some fcg →
          ∀ itf ∈ fcf.cmdItfCfg.names, itf ∉ fcg.cmdItfCfg.names) →
      (∀ f ∈ toProcess,
        (findController (activate_controllers avail cs toProcess) f).map
          ControllerSpec.lifecycle = some .active) ∧
      (∀ n, n ∉ toProcess →
        findController (activate_controllers avail cs toProcess) n =
          findController cs n) := by
  intro toProcess
  induction toProcess with
  | nil =>
    intro cs _ _ _
    exact ⟨fun f hf => absurd hf (List.not_mem_nil f), fun n _ => rfl⟩
  | cons f0 rest ih =>
    intro cs hnodup hentries hdisj
    obtain ⟨fc0, hfind0, hlc0, hcl0, hcfg0, huncl0⟩ := hentries f0 (by simp)
    have hnodup2 := List.nodup_cons.mp hnodup
    have hname0 : fc0.name = f0 := findController_name cs f0 fc0 hfind0
    have hcs2 : activate_one avail cs f0 =
        cs.map (activateBoth f0 fc0.cmdItfCfg.names) :=
      activate_one_success avail cs f0 fc0 hfind0 hcfg0 huncl0
    have hstep : activate_controllers avail cs (f0 :: rest) =
        activate_controllers avail (activate_one avail cs f0) rest := rfl
    have hclaimed2 : ∀ itf : String, itf ∉ fc0.cmdItfCfg.names →
        command_interface_is_claimed cs itf = false →
        command_interface_is_claimed
          (cs.map (activateBoth f0 fc0.cmdItfCfg.names)) itf = false := by
      intro itf hnot hfalse
      unfold command_interface_is_claimed at hfalse ⊢
      refine List.any_eq_false.mpr ?_
      intro x2 hx2
      rcases List.mem_map.mp hx2 with ⟨x, hx, rfl⟩
      by_cases hx0 : x.name = f0
      · rw [activateBoth_claims_self f0 _ x hx0]
        intro hcont
        exact hnot (by simpa using hcont)
      · rw [activateBoth_ne f0 _ x hx0]
        exact List.any_eq_false.mp hfalse x hx
    have hentries2 : ∀ f ∈ rest, ∃ fc,
        findController (cs.map (activateBoth f0 fc0.cmdItfCfg.names)) f
          = some fc ∧
        fc.lifecycle = .inactive ∧ fc.claimedInterfaces = [] ∧
        fc.cmdItfCfg.cfgType = .individual ∧
        (∀ itf ∈ fc.cmdItfCfg.names,
          command_interface_is_claimed
            (cs.map (activateBoth f0 fc0.cmdItfCfg.names)) itf = false) := by
      intro f hf
      have hne : f ≠ f0 := fun h => hnodup2.1 (h ▸ hf)
      obtain ⟨fcf, hfindf, hlcf, hclf, hcfgf, hunclf⟩ :=
        hentries f (by simp [hf])
      refine ⟨fcf, ?_, hlcf, hclf, hcfgf, ?_⟩
      · rw [← hcs2, activate_one_ne avail cs f0 f hne]
        exact hfindf
      · intro itf hitf
        exact hclaimed2 itf
          (hdisj f f0 (by simp [hf]) (by simp) hne fcf fc0 hfindf hfind0
            itf hitf)
          (hunclf itf hitf)
    have hdisj2 : ∀ f g, f ∈ rest → g ∈ rest → f ≠ g →
        ∀ fcf fcg,
          findController (cs.map (activateBoth f0 fc0.cmdItfCfg.names)) f
            = some fcf →
          findController (cs.map (activateBoth f0 fc0.cmdItfCfg.names)) g
            = some fcg →
          ∀ itf ∈ fcf.cmdItfCfg.names, itf ∉ fcg.cmdItfCfg.names := by
      intro f g hf hg hfg fcf fcg hff hgg
      have hnef : f ≠ f0 := fun h => hnodup2.1 (h ▸ hf)
      have hneg : g ≠ f0 := fun h => hnodup2.1 (h ▸ hg)
      rw [← hcs2, activate_one_ne avail cs f0 f hnef] at hff
      rw [← hcs2, activate_one_ne avail cs f0 g hneg] at hgg
      exact hdisj f g (by simp [hf]) (by simp [hg]) hfg fcf fcg hff hgg
    obtain ⟨ihact, ihpres⟩ :=
      ih (cs.map (activateBoth f0 fc0.cmdItfCfg.names)) hnodup2.2
        hentries2 hdisj2
    constructor
    · intro f hf
      rcases List.mem_cons.mp hf with rfl | hfr
      · rw [hstep, hcs2, ihpres f hnodup2.1,
          findController_map (activateBoth f fc0.cmdItfCfg.names)
            (activateBoth_name f fc0.cmdItfCfg.names) f cs,
          hfind0]
        show some ((activateBoth f fc0.cmdItfCfg.names fc0).lifecycle)
          = some .active
        rw [activateBoth_lifecycle_self f _ fc0 hname0]
      · rw [hstep, hcs2]
        exact ihact f hfr
    · intro n hn
      have hn0 : n ≠ f0 := fun h => hn (by simp [h])
      have hnr : n ∉ rest := fun h => hn (by simp [h])
      rw [hstep, hcs2, ihpres n hnr, ← hcs2,
        activate_one_ne avail cs f0 n hn0]

theorem updateLoopErrors_mem (ctx : UpdateCycleContext)
    (cs : List ControllerSpec) (n : String) :
    n ∈ updateLoopErrors ctx cs ↔
      ∃ x ∈ cs, x.name = n ∧ controllerTriggered ctx x = true ∧
        ¬ x.updateOutcome = ReturnType.ok := by
  unfold updateLoopErrors
  constructor
  · intro h
    rcases List.mem_map.mp h with ⟨x, hx, rfl⟩
    have hx2 := List.mem_filter.mp hx
    have hcond := hx2.2
    simp only [Bool.and_eq_true, Bool.not_eq_true', decide_eq_false_iff_not]
      at hcond
    exact ⟨x, hx2.1, rfl, hcond.1, hcond.2⟩
  · rintro ⟨x, hx, rfl, htrig, hout⟩
    refine List.mem_map.mpr ⟨x, List.mem_filter.mpr ⟨hx, ?_⟩, rfl⟩
    simp only [Bool.and_eq_true, Bool.not_eq_true', decide_eq_false_iff_not]
    exact ⟨htrig, hout⟩

theorem controllerTriggered_active (ctx : UpdateCycleContext)
    (c : ControllerSpec) (h : controllerTriggered ctx c = true) :
    is_controller_active c = true := by
  unfold controllerTriggered at h
  simp only [Bool.and_eq_true] at h
  exact h.1.1

theorem mem_name_unique (cs : List ControllerSpec)
    (hnodup : (cs.map ControllerSpec.name).Nodup) (x g : ControllerSpec)
    (hx : x ∈ cs) (hg : g ∈ cs) (hname : x.name = g.name) : x = g := by
  have h1 := findController_of_mem_nodup cs hnodup x hx
  have h2 := findController_of_mem_nodup cs hnodup g hg
  rw [hname] at h1
  rw [h1] at h2
  exact Option.some.inj h2

theorem controllerStepTime_not_active (ctx : UpdateCycleContext)
    (c : ControllerSpec) (h : is_controller_active c = false) :
    controllerStepTime ctx c = c := by
  unfold controllerStepTime controllerTriggered
  rw [h]
  rfl

theorem deactivateElem_not_active (names : List String)
    (c : ControllerSpec) (h : is_controller_active c = false) :
    deactivateElem names c = c := by
  unfold deactivateElem
  rw [h]
  rw [if_neg (by simp)]

theorem deactivateElem_hit (names : List String) (c : ControllerSpec)
    (hmem : names.contains c.name = true)
    (hact : is_controller_active c = true) :
    deactivateElem names c =
      { c with lifecycle := .inactive, claimedInterfaces := [] } := by
  unfold deactivateElem
  rw [hmem, hact]
  rfl

theorem deactivateElem_miss (names : List String) (c : ControllerSpec)
    (hmem : names.contains c.name = false) :
    deactivateElem names c = c := by
  unfold deactivateElem
  rw [hmem]
  rfl

theorem updateCycle_eq_error (ctx : UpdateCycleContext)
    (cs : List ControllerSpec)
    (h : (updateLoopErrors ctx cs).isEmpty = false) :
    updateCycle ctx cs = (.error,
      if (cycleFallbackLists ctx cs).1.isEmpty then
        deactivate_controllers (postLoopControllers ctx cs)
          (cycleDeactivateList ctx cs)
      else
        activate_controllers ctx.availableCmd
          (deactivate_controllers (postLoopControllers ctx cs)
            (cycleDeactivateList ctx cs))
          (cycleFallbackLists ctx cs).1) := by
  unfold updateCycle cycleFallbackLists cycleDeactivateList
    postLoopControllers
  simp only [h, Bool.false_eq_true, if_false]
  rfl

theorem postLoop_names (ctx : UpdateCycleContext)
    (cs : List ControllerSpec) :
    (postLoopControllers ctx cs).map ControllerSpec.name =
      cs.map ControllerSpec.name := by
  unfold postLoopControllers
  rw [List.map_map]
  exact List.map_congr_left (fun x _ => controllerStepTime_name ctx x)

theorem contains_iff_mem (l : List String) (a : String) :
    l.contains a = true ↔ a ∈ l := by
  simp

theorem is_controller_active_stepTime (ctx : UpdateCycleContext)
    (c : ControllerSpec) :
    is_controller_active (controllerStepTime ctx c) =
      is_controller_active c := by
  unfold is_controller_active
  rw [controllerStepTime_lifecycle]

theorem cycle_cs2_entry (ctx : UpdateCycleContext)
    (controllers : List ControllerSpec)
    (hnodup : (controllers.map ControllerSpec.name).Nodup)
    (x : ControllerSpec) (hx : x ∈ controllers) :
    findController
      (deactivate_controllers (postLoopControllers ctx controllers)
        (cycleDeactivateList ctx controllers)) x.name =
      some (deactivateElem (cycleDeactivateList ctx controllers)
        (controllerStepTime ctx x)) := by
  rw [findController_deactivate]
  unfold postLoopControllers
  rw [findController_stepTime, findController_of_mem_nodup controllers
    hnodup x hx]
  rfl

theorem cycle_fb_not_deact (ctx : UpdateCycleContext)
    (controllers : List ControllerSpec)
    (hnodup : (controllers.map ControllerSpec.name).Nodup)
    (g : ControllerSpec) (hg : g ∈ controllers)
    (hgact : is_controller_active g = false) :
    g.name ∉ cycleDeactivateList ctx controllers := by
  intro hmem
  unfold cycleDeactivateList at hmem
  rcases (mem_foldl_add_item_iff _ _ _).mp hmem with herr | huse
  · rcases (updateLoopErrors_mem ctx controllers g.name).mp herr with
      ⟨x, hx, hxname, htrig, _⟩
    have hxact := controllerTriggered_active ctx x htrig
    have hxg := mem_name_unique controllers hnodup x g hx hg hxname
    rw [hxg, hgact] at hxact
    exact Bool.false_ne_true hxact
  · rcases collectFallbacks_users_active (postLoopControllers ctx controllers)
      (updateLoopErrors ctx controllers) g.name huse with ⟨y, hy, hyname, hyact⟩
    rcases List.mem_map.mp hy with ⟨x, hx, rfl⟩
    rw [is_controller_active_stepTime] at hyact
    have hxname : x.name = g.name := by
      rw [← controllerStepTime_name ctx x]
      exact hyname
    have hxg := mem_name_unique controllers hnodup x g hx hg hxname
    rw [hxg, hgact] at hyact
    exact Bool.false_ne_true hyact

theorem cycle_cs2_unclaimed (ctx : UpdateCycleContext)
    (controllers : List ControllerSpec)
    (hnodup : (controllers.map ControllerSpec.name).Nodup)
    (hclaims : ∀ x ∈ controllers,
      (is_controller_active x = true →
        x.claimedInterfaces = x.cmdItfCfg.names) ∧
      (is_controller_active x = false → x.claimedInterfaces = []))
    (g : ControllerSpec) (hg : g ∈ controllers)
    (hgfb : g.name ∈ (cycleFallbackLists ctx controllers).1) :
    ∀ itf ∈ g.cmdItfCfg.names,
      command_interface_is_claimed
        (deactivate_controllers (postLoopControllers ctx controllers)
          (cycleDeactivateList ctx controllers)) itf = false := by
  intro itf hitf
  unfold command_interface_is_claimed
  refine List.any_eq_false.mpr ?_
  intro x2 hx2
  unfold deactivate_controllers at hx2
  rcases List.mem_map.mp hx2 with ⟨x1, hx1, rfl⟩
  rcases List.mem_map.mp hx1 with ⟨x, hx, rfl⟩
  by_cases hactx : is_controller_active x = true
  · by_cases hmem : (cycleDeactivateList ctx controllers).contains
        (controllerStepTime ctx x).name = true
    · rw [deactivateElem_hit _ _ hmem
        (by rw [is_controller_active_stepTime]; exact hactx)]
      simp
    · rw [deactivateElem_miss _ _ (Bool.eq_false_iff.mpr hmem)]
      rw [controllerStepTime_claims, (hclaims x hx).1 hactx]
      intro hcont
      have hitfx : itf ∈ x.cmdItfCfg.names := by
        simpa using hcont
      have huse : (controllerStepTime ctx x).name ∈
          (cycleFallbackLists ctx controllers).2 := by
        unfold cycleFallbackLists
        refine collectFallbacks_users_complete
          (postLoopControllers ctx controllers)
          (updateLoopErrors ctx controllers) g.name
          (controllerStepTime ctx g) (controllerStepTime ctx x) itf
          ?_ ?_ ?_ ?_ ?_ hgfb
        · unfold postLoopControllers
          rw [findController_stepTime,
            findController_of_mem_nodup controllers hnodup g hg]
          rfl
        · rw [controllerStepTime_cfg]
          exact hitf
        · exact List.mem_map_of_mem (controllerStepTime ctx) hx
        · rw [is_controller_active_stepTime]
          exact hactx
        · rw [controllerStepTime_cfg]
          exact (contains_iff_mem _ _).mpr hitfx
      apply hmem
      refine (contains_iff_mem _ _).mpr ?_
      unfold cycleDeactivateList
      exact (mem_foldl_add_item_iff _ _ _).mpr (Or.inr huse)
  · have hactx2 : is_controller_active x = false :=
      Bool.eq_false_iff.mpr hactx
    rw [controllerStepTime_not_active ctx x hactx2,
      deactivateElem_not_active _ x hactx2, (hclaims x hx).2 hactx2]
    simp

/-- C2 (amended): a controller whose trigger_update reports ERROR (or
throws) in cycle K is deactivated within that same cycle K — after the
per-controller update loop, not on cycle K+1 — and in the same cycle
its configured fallback controllers are activated and every
currently-active controller using command interfaces the fallbacks need
is deactivated too. Stated under the spec's steady-state invariants: an
active controller holds exactly its configured (INDIVIDUAL) command
interfaces, an inactive one holds none, controller names are unique,
the computed fallback list has no duplicates, is disjoint from the
failed controller, names only configured inactive controllers, and
distinct fallbacks need disjoint command interfaces. -/
theorem claim_C2
    (ctx : UpdateCycleContext) (controllers : List ControllerSpec)
    (hnodup : (controllers.map ControllerSpec.name).Nodup)
    (hclaims : ∀ x ∈ controllers,
      (is_controller_active x = true →
        x.claimedInterfaces = x.cmdItfCfg.names) ∧
      (is_controller_active x = false → x.claimedInterfaces = []))
    (hcfg : ∀ x ∈ controllers, x.cmdItfCfg.cfgType = .individual)
    (c : ControllerSpec) (hc : c ∈ controllers)
    (htrig : controllerTriggered ctx c = true)
    (herr : c.updateOutcome = ReturnType.error)
    (hcnofb : c.name ∉ (cycleFallbackLists ctx controllers).1)
    (hfbnodup : (cycleFallbackLists ctx controllers).1.Nodup)
    (hfb : ∀ f ∈ (cycleFallbackLists ctx controllers).1,
      ∃ g ∈ controllers, g.name = f ∧ g.lifecycle = .inactive)
    (hfbdisj : ∀ g1 ∈ controllers, ∀ g2 ∈ controllers,
      g1.name ∈ (cycleFallbackLists ctx controllers).1 →
      g2.name ∈ (cycleFallbackLists ctx controllers).1 →
      g1.name ≠ g2.name →
      ∀ itf ∈ g1.cmdItfCfg.names, itf ∉ g2.cmdItfCfg.names) :
    (updateCycle ctx controllers).1 = .error ∧
    c.name ∈ updateLoopErrors ctx controllers ∧
    (findController (updateCycle ctx controllers).2 c.name).map
      ControllerSpec.lifecycle = some .inactive ∧
    (∀ f ∈ (cycleFallbackLists ctx controllers).1,
      (findController (updateCycle ctx controllers).2 f).map
        ControllerSpec.lifecycle = some .active) ∧
    (∀ u ∈ controllers, is_controller_active u = true →
      u.name ∉ (cycleFallbackLists ctx controllers).1 →
      (∃ g ∈ controllers, g.name ∈ (cycleFallbackLists ctx controllers).1 ∧
        ∃ itf ∈ g.cmdItfCfg.names, itf ∈ u.cmdItfCfg.names) →
      (findController (updateCycle ctx controllers).2 u.name).map
        ControllerSpec.lifecycle = some .inactive) := by
  have herrsmem : c.name ∈ updateLoopErrors ctx controllers :=
    (updateLoopErrors_mem ctx controllers c.name).mpr
      ⟨c, hc, rfl, htrig, by simp [herr]⟩
  have herrne : (updateLoopErrors ctx controllers).isEmpty = false := by
    cases herrs : updateLoopErrors ctx controllers with
    | nil =>
      rw [herrs] at herrsmem
      exact absurd herrsmem (List.not_mem_nil _)
    | cons a l => rfl
  have hcycle := updateCycle_eq_error ctx controllers herrne
  have herrs_sub : ∀ n, n ∈ updateLoopErrors ctx controllers →
      n ∈ cycleDeactivateList ctx controllers := by
    intro n hn
    unfold cycleDeactivateList
    exact (mem_foldl_add_item_iff _ _ _).mpr (Or.inl hn)
  have husers_sub : ∀ n, n ∈ (cycleFallbackLists ctx controllers).2 →
      n ∈ cycleDeactivateList ctx controllers := by
    intro n hn
    unfold cycleDeactivateList
    exact (mem_foldl_add_item_iff _ _ _).mpr (Or.inr hn)
  -- the entry a deactivated active controller gets in the
  -- post-deactivation roster
  have hdeact_entry : ∀ x ∈ controllers, is_controller_active x = true →
      x.name ∈ cycleDeactivateList ctx controllers →
      (findController
        (deactivate_controllers (postLoopControllers ctx controllers)
          (cycleDeactivateList ctx controllers)) x.name).map
        ControllerSpec.lifecycle = some .inactive := by
    intro x hx hxact hxdl
    rw [cycle_cs2_entry ctx controllers hnodup x hx]
    have hhit := deactivateElem_hit (cycleDeactivateList ctx controllers)
      (controllerStepTime ctx x)
      (by
        rw [controllerStepTime_name]
        exact (contains_iff_mem _ _).mpr hxdl)
      (by rw [is_controller_active_stepTime]; exact hxact)
    rw [hhit]
    rfl
  -- the entry an inactive controller keeps
  have hfbentry : ∀ g ∈ controllers, g.lifecycle = LifecycleState.inactive →
      findController
        (deactivate_controllers (postLoopControllers ctx controllers)
          (cycleDeactivateList ctx controllers)) g.name = some g := by
    intro g hg hglc
    have hgina : is_controller_active g = false := by
      unfold is_controller_active
      rw [hglc]
      rfl
    rw [cycle_cs2_entry ctx controllers hnodup g hg,
      controllerStepTime_not_active ctx g hgina,
      deactivateElem_not_active _ g hgina]
  -- the activation-phase hypotheses over the post-deactivation roster
  have hentries2 : ∀ f ∈ (cycleFallbackLists ctx controllers).1, ∃ fc,
      findController
        (deactivate_controllers (postLoopControllers ctx controllers)
          (cycleDeactivateList ctx controllers)) f = some fc ∧
      fc.lifecycle = .inactive ∧ fc.claimedInterfaces = [] ∧
      fc.cmdItfCfg.cfgType = .individual ∧
      (∀ itf ∈ fc.cmdItfCfg.names,
        command_interface_is_claimed
          (deactivate_controllers (postLoopControllers ctx controllers)
            (cycleDeactivateList ctx controllers)) itf = false) := by
    intro f hf
    obtain ⟨g, hg, hgname, hglc⟩ := hfb f hf
    have hgina : is_controller_active g = false := by
      unfold is_controller_active
      rw [hglc]
      rfl
    refine ⟨g, ?_, hglc, (hclaims g hg).2 hgina, hcfg g hg, ?_⟩
    · rw [← hgname]
      exact hfbentry g hg hglc
    · exact cycle_cs2_unclaimed ctx controllers hnodup hclaims g hg
        (hgname ▸ hf)
  have hdisj2 : ∀ f g, f ∈ (cycleFallbackLists ctx controllers).1 →
      g ∈ (cycleFallbackLists ctx controllers).1 → f ≠ g →
      ∀ fcf fcg,
        findController
          (deactivate_controllers (postLoopControllers ctx controllers)
            (cycleDeactivateList ctx controllers)) f = some fcf →
        findController
          (deactivate_controllers (postLoopControllers ctx controllers)
            (cycleDeactivateList ctx controllers)) g = some fcg →
        ∀ itf ∈ fcf.cmdItfCfg.names, itf ∉ fcg.cmdItfCfg.names := by
    intro f g hf hg hfg fcf fcg hff hgg
    obtain ⟨g1, hg1, hg1name, hg1lc⟩ := hfb f hf
    obtain ⟨g2, hg2, hg2name, hg2lc⟩ := hfb g hg
    have he1 : fcf = g1 := by
      have := hfbentry g1 hg1 hg1lc
      rw [hg1name, hff] at this
      exact (Option.some.inj this)
    have he2 : fcg = g2 := by
      have := hfbentry g2 hg2 hg2lc
      rw [hg2name, hgg] at this
      exact (Option.some.inj this)
    rw [he1, he2]
    exact hfbdisj g1 hg1 g2 hg2 (hg1name ▸ hf) (hg2name ▸ hg)
      (by rw [hg1name, hg2name]; exact hfg)
  obtain ⟨hactfb, hactpres⟩ := activate_controllers_spec ctx.availableCmd
    (cycleFallbackLists ctx controllers).1
    (deactivate_controllers (postLoopControllers ctx controllers)
      (cycleDeactivateList ctx controllers))
    hfbnodup hentries2 hdisj2
  -- the final roster keeps non-fallback entries as the deactivation
  -- phase left them
  have hfinal_pres : ∀ n, n ∉ (cycleFallbackLists ctx controllers).1 →
      findController (updateCycle ctx controllers).2 n =
        findController
          (deactivate_controllers (postLoopControllers ctx controllers)
            (cycleDeactivateList ctx controllers)) n := by
    intro n hn
    rw [hcycle]
    by_cases hfbe : (cycleFallbackLists ctx controllers).1.isEmpty
    · rw [if_pos hfbe]
    · rw [if_neg hfbe]
      exact hactpres n hn
  refine ⟨by rw [hcycle], herrsmem, ?_, ?_, ?_⟩
  · rw [hfinal_pres c.name hcnofb]
    exact hdeact_entry c hc (controllerTriggered_active ctx c htrig)
      (herrs_sub c.name herrsmem)
  · intro f hf
    rw [hcycle]
    by_cases hfbe : (cycleFallbackLists ctx controllers).1.isEmpty
    · exfalso
      rw [List.isEmpty_iff.mp hfbe] at hf
      exact absurd hf (List.not_mem_nil f)
    · rw [if_neg hfbe]
      exact hactfb f hf
  · intro u hu huact hunofb hex
    obtain ⟨g, hg, hgfb, itf, hitf, hitfu⟩ := hex
    have huse : u.name ∈ (cycleFallbackLists ctx controllers).2 := by
      have h2 : (controllerStepTime ctx u).name ∈
          (cycleFallbackLists ctx controllers).2 := by
        unfold cycleFallbackLists
        refine collectFallbacks_users_complete
          (postLoopControllers ctx controllers)
          (updateLoopErrors ctx controllers) g.name
          (controllerStepTime ctx g) (controllerStepTime ctx u) itf
          ?_ ?_ ?_ ?_ ?_ hgfb
        · unfold postLoopControllers
          rw [findController_stepTime,
            findController_of_mem_nodup controllers hnodup g hg]
          rfl
        · rw [controllerStepTime_cfg]
          exact hitf
        · exact List.mem_map_of_mem (controllerStepTime ctx) hu
        · rw [is_controller_active_stepTime]
          exact huact
        · rw [controllerStepTime_cfg]
          exact (contains_iff_mem _ _).mpr hitfu
      rw [controllerStepTime_name] at h2
      exact h2
    rw [hfinal_pres u.name hunofb]
    exact hdeact_entry u hu huact (husers_sub u.name huse)

/-- C2 counterexample: the claim says a controller whose update errs in
cycle K is deactivated on cycle K+1, not within cycle K. On the spec-S4
roster, after the single cycle K in which risky's update reports ERROR,
risky is already INACTIVE (and safe already ACTIVE) — the deactivation
and fallback activation happen within cycle K itself
(controller_manager.cpp lines 2881-2933 run inside the same update
call), refuting the claimed timing. -/
theorem claim_C2_counterexample :
    (findController (updateCycle c2ctx c2roster).2 ("risky")).map
      ControllerSpec.lifecycle = some .inactive ∧
    ¬ ((findController (updateCycle c2ctx c2roster).2 ("risky")).map
      ControllerSpec.lifecycle = some .active) ∧
    (findController (updateCycle c2ctx c2roster).2 ("safe")).map
      ControllerSpec.lifecycle = some .active := by
  refine ⟨?_, ?_, ?_⟩ <;> decide

/-- Witness for C2 on the spec-S4 roster. -/
theorem claim_C2_witness :
    (updateCycle c2ctx c2roster).1 = .error ∧
    c2risky.name ∈ updateLoopErrors c2ctx c2roster ∧
    (findController (updateCycle c2ctx c2roster).2 c2risky.name).map
      ControllerSpec.lifecycle = some .inactive ∧
    (∀ f ∈ (cycleFallbackLists c2ctx c2roster).1,
      (findController (updateCycle c2ctx c2roster).2 f).map
        ControllerSpec.lifecycle = some .active) ∧
    (∀ u ∈ c2roster, is_controller_active u = true →
      u.name ∉ (cycleFallbackLists c2ctx c2roster).1 →
      (∃ g ∈ c2roster, g.name ∈ (cycleFallbackLists c2ctx c2roster).1 ∧
        ∃ itf ∈ g.cmdItfCfg.names, itf ∈ u.cmdItfCfg.names) →
      (findController (updateCycle c2ctx c2roster).2 u.name).map
        ControllerSpec.lifecycle = some .inactive) :=
  claim_C2 c2ctx c2roster (by decide) (by decide) (by decide) c2risky
    (by decide) (by decide) rfl (by decide) (by decide) (by decide)
    (by decide)

end Ros2Control
